import Mathlib

/-!
Verification development for the pull engine in src/ostree/ostree-pull.c
(OSTree commit-era pull command).  The C code is shallowly embedded:

* the scanner thread (scan_one_metadata_object, scan_commit_object,
  scan_dirtree_object and their loops) becomes a family of mutually
  recursive pure functions over an explicit ScanState; each C function
  returning gboolean with a GError out-parameter becomes a function
  returning ScanState × Option PullError, where the returned state keeps
  all mutations performed before a goto-out exit, exactly as the hash
  tables and queues in the C code do;
* the main-thread dispatcher (on_metadata_objects_to_fetch_ready,
  check_outstanding_requests_handle_error, on_metadata_staged,
  content_fetch_on_stage_complete) becomes step functions over MainState;
  a g_assert that fails aborts the process, which is modelled by the
  distinguished DispatchResult.assertFailed outcome;
* the tail of ostree_builtin_pull (from the remote-config mode check to
  the final ref writes) becomes a sequential function that also records a
  trace of externally visible events;
* guint / gint arithmetic is Nat arithmetic taken modulo 2^32 wherever
  the C code increments or decrements a 32-bit counter.

External collaborators that are not part of this file of the repository
(the OstreeRepo store, ot_util_filename_validate,
ot_keyfile_get_value_with_default, ostree_repo_mode_from_string) are
modelled from the specification; each such definition carries a doc
comment starting with "Modelled from the spec:".
-/

/-- The four object types of OstreeObjectType (ostree-core.h). -/
inductive OstreeObjectType
  | COMMIT
  | DIR_TREE
  | DIR_META
  | FILE
deriving DecidableEq, Repr

/-- OSTREE_OBJECT_TYPE_IS_META: COMMIT, DIR_TREE and DIR_META are metadata;
FILE is the only content type. -/
def OSTREE_OBJECT_TYPE_IS_META : OstreeObjectType → Bool
  | .COMMIT => true
  | .DIR_TREE => true
  | .DIR_META => true
  | .FILE => false

/-- An object name: checksum (in canonical hex form) paired with the
object type, as built by ostree_object_name_serialize. -/
abbrev ObjectName := String × OstreeObjectType

/-- Error outcomes of the pull code.  corrupt covers g_set_error with
G_IO_ERROR_FAILED in the pull file itself (recursion limit, bad summary
line); loadFailed models a failing ostree_repo_load_variant;
invalidFilename models ot_util_filename_validate failing; checksum is
the specification Checksum kind (staged digest differing from the
requested digest); unsupportedMode is the archive-mode rejection in
ostree_builtin_pull; assertionNotReached models g_assert_not_reached in
the scanner; stageFailed models a failing stage operation reported by
the store. -/
inductive PullError
  | corrupt (msg : String)
  | loadFailed (t : OstreeObjectType) (csum : String)
  | invalidFilename (name : String)
  | checksum
  | unsupportedMode (mode : String)
  | assertionNotReached
  | stageFailed
deriving DecidableEq, Repr

/-- Payload of a COMMIT variant as read by scan_commit_object: child 2 is
the related-objects list of (name, checksum) pairs, child 6 the root
tree-contents checksum, child 7 the root tree-meta checksum.  Checksums
are carried in hex form (ostree_checksum_bytes_peek plus
ostree_checksum_from_bytes collapse to the identity here). -/
structure CommitVariant where
  related : List (String × String)
  tree_contents_csum : String
  tree_meta_csum : String

/-- Payload of a DIR_TREE variant as read by scan_dirtree_object: the
files list of (filename, checksum) pairs and the dirs list of
(dirname, tree checksum, meta checksum) triples. -/
structure DirTreeVariant where
  files : List (String × String)
  dirs : List (String × String × String)

/-- Modelled from the spec: the store interface of §6 that the scanner
consumes.  has_object is ostree_repo_has_object (modelled total: the
store itself never fails), loadCommit / loadDirtree are
ostree_repo_load_variant for the two scanned metadata types, returning
none when the object is missing or malformed. -/
structure OstreeRepo where
  hasObject : OstreeObjectType → String → Bool
  loadCommit : String → Option CommitVariant
  loadDirtree : String → Option DirTreeVariant

/-- The parts of OtPullData that the scanner thread reads: the repository
and the global opt_related flag ("--related" on the command line). -/
structure PullEnv where
  repo : OstreeRepo
  opt_related : Bool

/-- The scanner-visible mutable state of OtPullData.  scanned_metadata,
requested_metadata and requested_content are the three GHashTable
ledgers (sets, represented as duplicate-free-by-construction lists in
insertion order); fetch_pushes is the sequence of PULL_MSG_FETCH
messages pushed onto metadata_objects_to_fetch; n_scanned_metadata is
the shared atomic counter; load_events is a ghost trace recording every
successful ostree_repo_load_variant together with the recursion depth at
which it was performed (used to state the recursion-bound claim). -/
structure ScanState where
  scanned_metadata : List ObjectName
  requested_metadata : List String
  requested_content : List String
  fetch_pushes : List ObjectName
  n_scanned_metadata : Nat
  load_events : List (OstreeObjectType × String × Nat)
deriving DecidableEq, Repr

/-- The scanner state at the start of a pull: all ledgers empty. -/
def initScanState : ScanState :=
  { scanned_metadata := []
    requested_metadata := []
    requested_content := []
    fetch_pushes := []
    n_scanned_metadata := 0
    load_events := [] }

/-- OSTREE_MAX_RECURSION (ostree-core.h; the spec gives 256). -/
def OSTREE_MAX_RECURSION : Nat := 256

/-- 2^32, the modulus of guint / gint arithmetic. -/
def GUINT_MOD : Nat := 4294967296

/-- Modelled from the spec: ot_util_filename_validate is not under src/;
§3 requires a valid filename to contain no slash and no NUL byte and to
be neither "." nor "..". -/
def ot_util_filename_validate (name : String) : Bool :=
  !(name == ".") && !(name == "..") && !(name.contains '/')
    && !(name.contains (Char.ofNat 0))

/-- The files loop of scan_dirtree_object (lines 478-506): for each
(filename, checksum) entry, validate the filename, then, when the FILE
object is neither stored nor already in requested_content, insert the
checksum into requested_content and push PULL_MSG_FETCH for
(checksum, FILE). -/
def scan_dirtree_files (env : PullEnv) (files : List (String × String))
    (st : ScanState) : ScanState × Option PullError :=
  match files with
  | [] => (st, none)
  | (filename, file_checksum) :: rest =>
    if !(ot_util_filename_validate filename) then
      (st, some (.invalidFilename filename))
    else
      let file_is_stored := env.repo.hasObject .FILE file_checksum
      if !file_is_stored && !(st.requested_content.contains file_checksum) then
        scan_dirtree_files env rest
          { st with
            requested_content := st.requested_content ++ [file_checksum]
            fetch_pushes := st.fetch_pushes ++ [(file_checksum, .FILE)] }
      else
        scan_dirtree_files env rest st

mutual

/-- scan_one_metadata_object (lines 801-862): skip if already in
scanned_metadata; otherwise, when the object is neither stored nor in
requested_metadata, insert the checksum into requested_metadata and push
PULL_MSG_FETCH; when it is stored, recurse by type (COMMIT, DIR_TREE;
DIR_META is a leaf; FILE hits g_assert_not_reached), then insert the
name into scanned_metadata and bump the atomic n_scanned_metadata. -/
def scan_one_metadata_object (env : PullEnv) (csum : String)
    (objtype : OstreeObjectType) (recursion_depth : Nat)
    (st : ScanState) : ScanState × Option PullError :=
  let object : ObjectName := (csum, objtype)
  if st.scanned_metadata.contains object then
    (st, none)
  else
    let is_requested := st.requested_metadata.contains csum
    let is_stored := env.repo.hasObject objtype csum
    if !is_stored && !is_requested then
      ({ st with
          requested_metadata := st.requested_metadata ++ [csum]
          fetch_pushes := st.fetch_pushes ++ [object] }, none)
    else if is_stored then
      match objtype with
      | .COMMIT =>
        match scan_commit_object env csum recursion_depth st with
        | (st, some e) => (st, some e)
        | (st, none) =>
          ({ st with
              scanned_metadata := st.scanned_metadata ++ [object]
              n_scanned_metadata := (st.n_scanned_metadata + 1) % GUINT_MOD }, none)
      | .DIR_META =>
        ({ st with
            scanned_metadata := st.scanned_metadata ++ [object]
            n_scanned_metadata := (st.n_scanned_metadata + 1) % GUINT_MOD }, none)
      | .DIR_TREE =>
        match scan_dirtree_object env csum recursion_depth st with
        | (st, some e) => (st, some e)
        | (st, none) =>
          ({ st with
              scanned_metadata := st.scanned_metadata ++ [object]
              n_scanned_metadata := (st.n_scanned_metadata + 1) % GUINT_MOD }, none)
      | .FILE => (st, some .assertionNotReached)
    else
      (st, none)
termination_by (OSTREE_MAX_RECURSION + 2 - recursion_depth, 1, 0)

/-- scan_commit_object (lines 737-799): reject depths above
OSTREE_MAX_RECURSION, load the commit variant (recording the ghost load
event), scan the root tree-contents checksum as DIR_TREE and the root
tree-meta checksum as DIR_META at depth + 1, then, when opt_related is
set, scan every related checksum as COMMIT at depth + 1. -/
def scan_commit_object (env : PullEnv) (checksum : String)
    (recursion_depth : Nat) (st : ScanState) : ScanState × Option PullError :=
  if _h : recursion_depth > OSTREE_MAX_RECURSION then
    (st, some (.corrupt "Exceeded maximum recursion"))
  else
    match env.repo.loadCommit checksum with
    | none => (st, some (.loadFailed .COMMIT checksum))
    | some commit =>
      let st := { st with
        load_events := st.load_events ++ [(.COMMIT, checksum, recursion_depth)] }
      match scan_one_metadata_object env commit.tree_contents_csum .DIR_TREE
              (recursion_depth + 1) st with
      | (st, some e) => (st, some e)
      | (st, none) =>
        match scan_one_metadata_object env commit.tree_meta_csum .DIR_META
                (recursion_depth + 1) st with
        | (st, some e) => (st, some e)
        | (st, none) =>
          if env.opt_related then
            scan_commit_related env commit.related (recursion_depth + 1) st
          else
            (st, none)
termination_by (OSTREE_MAX_RECURSION + 2 - recursion_depth, 0, 0)

/-- The related-objects loop of scan_commit_object (lines 785-791): scan
each related checksum as COMMIT.  The depth argument is already
recursion_depth + 1 of the enclosing commit. -/
def scan_commit_related (env : PullEnv) (related : List (String × String))
    (depth : Nat) (st : ScanState) : ScanState × Option PullError :=
  match related with
  | [] => (st, none)
  | (_name, csum) :: rest =>
    match scan_one_metadata_object env csum .COMMIT depth st with
    | (st, some e) => (st, some e)
    | (st, none) => scan_commit_related env rest depth st
termination_by (OSTREE_MAX_RECURSION + 2 - depth, 2, related.length)

/-- scan_dirtree_object (lines 449-536): reject depths above
OSTREE_MAX_RECURSION, load the tree variant (recording the ghost load
event), run the files loop, then the dirs loop at depth + 1. -/
def scan_dirtree_object (env : PullEnv) (checksum : String)
    (recursion_depth : Nat) (st : ScanState) : ScanState × Option PullError :=
  if _h : recursion_depth > OSTREE_MAX_RECURSION then
    (st, some (.corrupt "Exceeded maximum recursion"))
  else
    match env.repo.loadDirtree checksum with
    | none => (st, some (.loadFailed .DIR_TREE checksum))
    | some tree =>
      let st := { st with
        load_events := st.load_events ++ [(.DIR_TREE, checksum, recursion_depth)] }
      match scan_dirtree_files env tree.files st with
      | (st, some e) => (st, some e)
      | (st, none) => scan_dirtree_dirs env tree.dirs (recursion_depth + 1) st
termination_by (OSTREE_MAX_RECURSION + 2 - recursion_depth, 0, 0)

/-- The dirs loop of scan_dirtree_object (lines 508-531): validate each
dirname, scan the subtree checksum as DIR_TREE and the submeta checksum
as DIR_META.  The depth argument is already recursion_depth + 1 of the
enclosing tree. -/
def scan_dirtree_dirs (env : PullEnv) (dirs : List (String × String × String))
    (depth : Nat) (st : ScanState) : ScanState × Option PullError :=
  match dirs with
  | [] => (st, none)
  | (dirname, tree_csum, meta_csum) :: rest =>
    if !(ot_util_filename_validate dirname) then
      (st, some (.invalidFilename dirname))
    else
      match scan_one_metadata_object env tree_csum .DIR_TREE depth st with
      | (st, some e) => (st, some e)
      | (st, none) =>
        match scan_one_metadata_object env meta_csum .DIR_META depth st with
        | (st, some e) => (st, some e)
        | (st, none) => scan_dirtree_dirs env rest depth st
termination_by (OSTREE_MAX_RECURSION + 2 - depth, 2, dirs.length)

end

/-- scan_one_metadata_object_v_name (lines 864-879): deserialize the
object name and scan it at recursion depth 0. -/
def scan_one_metadata_object_v_name (env : PullEnv) (object : ObjectName)
    (st : ScanState) : ScanState × Option PullError :=
  scan_one_metadata_object env object.1 object.2 0 st

/-- The PULL_MSG_SCAN branch of the scanner message loop
(on_metadata_objects_to_scan_ready, lines 908-917): process a list of
SCAN messages in order, stopping at the first error (the C code jumps to
out and reports the error to the main thread). -/
def run_scan_list (env : PullEnv) (objs : List ObjectName)
    (st : ScanState) : ScanState × Option PullError :=
  match objs with
  | [] => (st, none)
  | o :: rest =>
    match scan_one_metadata_object_v_name env o st with
    | (st, some e) => (st, some e)
    | (st, none) => run_scan_list env rest st

/-!  The main-thread dispatcher. -/

/-- Messages that the main thread pushes onto metadata_objects_to_scan:
PULL_MSG_MAIN_IDLE with its serial, PULL_MSG_SCAN with an object name,
and PULL_MSG_QUIT at shutdown. -/
inductive ScanQueueMsg
  | MAIN_IDLE (serial : Nat)
  | SCAN (obj : ObjectName)
  | QUIT
deriving DecidableEq, Repr

/-- Messages the scanner pushes onto metadata_objects_to_fetch:
PULL_MSG_MAIN_IDLE (forwarded back), PULL_MSG_SCAN_IDLE (the serial
pushed by the scanner is always 0 and is ignored by the dispatcher), and
PULL_MSG_FETCH with an object name. -/
inductive FetchQueueMsg
  | MAIN_IDLE (serial : Nat)
  | SCAN_IDLE (serial : Nat)
  | FETCH (obj : ObjectName)
deriving DecidableEq, Repr

/-- The main-thread-visible mutable state of OtPullData.  scan_pushes
accumulates the messages the main thread pushes onto
metadata_objects_to_scan; fetch_starts accumulates the network requests
issued via ostree_fetcher_request_uri_async; loop_quit records that
g_main_loop_quit has been called on the main loop;
scan_queue_is_null models the early phase in which
metadata_objects_to_scan has not been created yet (ref fetching). -/
structure MainState where
  metadata_scan_idle : Bool
  idle_serial : Nat
  n_outstanding_metadata_fetches : Nat
  n_outstanding_content_fetches : Nat
  n_outstanding_metadata_stage_requests : Nat
  n_outstanding_content_stage_requests : Nat
  n_requested_metadata : Nat
  n_requested_content : Nat
  n_fetched_metadata : Nat
  n_fetched_content : Nat
  outstanding_uri_requests : Nat
  scan_queue_is_null : Bool
  caught_error : Bool
  async_error : Option PullError
  loop_quit : Bool
  scan_pushes : List ScanQueueMsg
  fetch_starts : List ObjectName
deriving DecidableEq, Repr

/-- A MainState with everything zeroed, queues created, no error: the
state right after both worker queues exist and before any message. -/
def initMainState : MainState :=
  { metadata_scan_idle := false
    idle_serial := 0
    n_outstanding_metadata_fetches := 0
    n_outstanding_content_fetches := 0
    n_outstanding_metadata_stage_requests := 0
    n_outstanding_content_stage_requests := 0
    n_requested_metadata := 0
    n_requested_content := 0
    n_fetched_metadata := 0
    n_fetched_content := 0
    outstanding_uri_requests := 0
    scan_queue_is_null := false
    caught_error := false
    async_error := none
    loop_quit := false
    scan_pushes := []
    fetch_starts := [] }

/-- Decrement of a guint (wraps at 0 like the C "--" operator). -/
def guint_dec (x : Nat) : Nat := (x + GUINT_MOD - 1) % GUINT_MOD

/-- throw_async_error (lines 280-297): the first error is stored on the
coordinator, sets caught_error and quits the main loop; later errors are
dropped. -/
def throw_async_error (st : MainState) (err : Option PullError) : MainState :=
  match err with
  | none => st
  | some e =>
    if st.caught_error then st
    else { st with caught_error := true, async_error := some e, loop_quit := true }

/-- check_outstanding_requests_handle_error (lines 299-324): propagate
the error, then quit the main loop when either (refs phase) the scan
queue does not exist and no URI request is outstanding, or (pull phase)
the latched scan-idle flag is set and all four outstanding counters are
zero. -/
def check_outstanding_requests_handle_error (st : MainState)
    (err : Option PullError) : MainState :=
  let st := throw_async_error st err
  let current_fetch_idle :=
    st.n_outstanding_metadata_fetches == 0 && st.n_outstanding_content_fetches == 0
  let current_stage_idle :=
    st.n_outstanding_metadata_stage_requests == 0
      && st.n_outstanding_content_stage_requests == 0
  if st.scan_queue_is_null then
    if st.outstanding_uri_requests == 0 then { st with loop_quit := true } else st
  else if st.metadata_scan_idle && current_fetch_idle && current_stage_idle then
    { st with loop_quit := true }
  else
    st

/-- Outcome of a main-thread callback: either the updated state, or an
aborted process when a g_assert failed. -/
inductive DispatchResult
  | ok (st : MainState)
  | assertFailed (msg : String)
deriving DecidableEq, Repr

/-- on_metadata_objects_to_fetch_ready (lines 977-1049), processing of a
single dequeued message.  MAIN_IDLE with the current serial asserts the
idle flag is unset and latches it; MAIN_IDLE with a different serial is
dropped.  SCAN_IDLE, when the idle flag is unset, bumps idle_serial and
pushes MAIN_IDLE with the new serial back to the scanner.  FETCH bumps
the outstanding and requested counters for the object class and issues
the network request.  Every path falls through to
check_outstanding_requests_handle_error with no error. -/
def on_metadata_objects_to_fetch_ready (st : MainState)
    (msg : FetchQueueMsg) : DispatchResult :=
  match msg with
  | .MAIN_IDLE s =>
    if s == st.idle_serial then
      if st.metadata_scan_idle then
        .assertFailed "assertion failed: metadata_scan_idle was already set"
      else
        .ok (check_outstanding_requests_handle_error
              { st with metadata_scan_idle := true } none)
    else
      .ok (check_outstanding_requests_handle_error st none)
  | .SCAN_IDLE _ =>
    if !st.metadata_scan_idle then
      let serial := (st.idle_serial + 1) % GUINT_MOD
      .ok (check_outstanding_requests_handle_error
            { st with
                idle_serial := serial
                scan_pushes := st.scan_pushes ++ [.MAIN_IDLE serial] } none)
    else
      .ok (check_outstanding_requests_handle_error st none)
  | .FETCH obj =>
    let is_meta := OSTREE_OBJECT_TYPE_IS_META obj.2
    let st :=
      if is_meta then
        { st with
            n_outstanding_metadata_fetches :=
              (st.n_outstanding_metadata_fetches + 1) % GUINT_MOD
            n_requested_metadata := (st.n_requested_metadata + 1) % GUINT_MOD }
      else
        { st with
            n_outstanding_content_fetches :=
              (st.n_outstanding_content_fetches + 1) % GUINT_MOD
            n_requested_content := (st.n_requested_content + 1) % GUINT_MOD }
    .ok (check_outstanding_requests_handle_error
          { st with fetch_starts := st.fetch_starts ++ [obj] } none)

/-- on_metadata_staged (lines 655-694).  The stage_result argument is
the outcome of ostree_repo_stage_metadata_finish: the checksum the store
recomputed, or an error.  On success the handler asserts the object type
is metadata, asserts the recomputed checksum equals the requested one
(a failing g_assert aborts the process), clears the latched scan-idle
flag and re-enqueues PULL_MSG_SCAN for the object; on every non-aborting
path it decrements n_outstanding_metadata_stage_requests and runs
check_outstanding_requests_handle_error. -/
def on_metadata_staged (st : MainState) (stage_result : Except PullError String)
    (fetch_object : ObjectName) : DispatchResult :=
  match stage_result with
  | .error e =>
    .ok (check_outstanding_requests_handle_error
          { st with
              n_outstanding_metadata_stage_requests :=
                guint_dec st.n_outstanding_metadata_stage_requests } (some e))
  | .ok checksum =>
    if !(OSTREE_OBJECT_TYPE_IS_META fetch_object.2) then
      .assertFailed "assertion failed: OSTREE_OBJECT_TYPE_IS_META objtype"
    else if !(checksum == fetch_object.1) then
      .assertFailed "assertion failed: strcmp of checksum and expected_checksum"
    else
      .ok (check_outstanding_requests_handle_error
            { st with
                metadata_scan_idle := false
                scan_pushes := st.scan_pushes ++ [.SCAN fetch_object]
                n_outstanding_metadata_stage_requests :=
                  guint_dec st.n_outstanding_metadata_stage_requests } none)

/-- content_fetch_on_stage_complete (lines 567-602).  On success the
handler asserts the object type is FILE, asserts the recomputed checksum
equals the requested one (a failing g_assert aborts the process), and
counts the object in n_fetched_content; on every non-aborting path it
decrements n_outstanding_content_stage_requests and runs
check_outstanding_requests_handle_error. -/
def content_fetch_on_stage_complete (st : MainState)
    (stage_result : Except PullError String)
    (fetch_object : ObjectName) : DispatchResult :=
  match stage_result with
  | .error e =>
    .ok (check_outstanding_requests_handle_error
          { st with
              n_outstanding_content_stage_requests :=
                guint_dec st.n_outstanding_content_stage_requests } (some e))
  | .ok checksum =>
    if !(fetch_object.2 == OstreeObjectType.FILE) then
      .assertFailed "assertion failed: objtype is OSTREE_OBJECT_TYPE_FILE"
    else if !(checksum == fetch_object.1) then
      .assertFailed "assertion failed: strcmp of checksum and expected_checksum"
    else
      .ok (check_outstanding_requests_handle_error
            { st with
                n_fetched_content := (st.n_fetched_content + 1) % GUINT_MOD
                n_outstanding_content_stage_requests :=
                  guint_dec st.n_outstanding_content_stage_requests } none)

/-!  The pull coordinator (tail of ostree_builtin_pull). -/

/-- A remote key file: (group, key, value) triples in file order. -/
abbrev GKeyFileData := List (String × String × String)

/-- g_key_file_get_value restricted to lookup: the first entry for the
given group and key, if any. -/
def g_key_file_get_value (kf : GKeyFileData) (group key : String) : Option String :=
  match kf.find? (fun e => e.1 == group && e.2.1 == key) with
  | some e => some e.2.2
  | none => none

/-- Modelled from the spec: ot_keyfile_get_value_with_default is not
under src/; it yields the stored value when the group and key are
present and the supplied default when they are absent, and in particular
never reports a missing-key error. -/
def ot_keyfile_get_value_with_default (kf : GKeyFileData)
    (group key default_value : String) : String :=
  match g_key_file_get_value kf group key with
  | some v => v
  | none => default_value

/-- The three repository modes of OstreeRepoMode. -/
inductive OstreeRepoMode
  | BARE
  | ARCHIVE
  | ARCHIVE_Z2
deriving DecidableEq, Repr

/-- Modelled from the spec: ostree_repo_mode_from_string is not under
src/; "bare", "archive" and "archive-z2" are the recognized mode
strings (§4.5 step 1 and the glossary name archive-z2; bare is the
default mode of the boundary tests), anything else is an error. -/
def ostree_repo_mode_from_string (s : String) : Except PullError OstreeRepoMode :=
  if s == "bare" then .ok .BARE
  else if s == "archive" then .ok .ARCHIVE
  else if s == "archive-z2" then .ok .ARCHIVE_Z2
  else .error (.corrupt "Invalid mode")

/-- Externally visible events of a pull run, in program order. -/
inductive PullEvent
  | fetched_config
  | prepared_transaction
  | pushed_scan (csum : String)
  | ran_main_loop
  | committed_transaction
  | wrote_ref (remote r csum : String)
deriving DecidableEq, Repr

/-- True exactly on a wrote_ref event. -/
def is_write_ref : PullEvent → Bool
  | .wrote_ref _ _ _ => true
  | _ => false

/-- The digest of a pushed_scan event, if any. -/
def seed_digest : PullEvent → Option String
  | .pushed_scan c => some c
  | _ => none

/-- The requested-refs loop of ostree_builtin_pull (lines 1367-1393):
for each (ref, sha256), resolve the local value of remote/ref; when it
exists and equals sha256 nothing happens ("No changes"), otherwise a
PULL_MSG_SCAN for (sha256, COMMIT) is pushed and the ref is recorded in
updated_refs.  Returns the pushed-scan events and updated_refs in loop
order. -/
def seed_refs (remote_name : String) (resolve_rev : String → Option String)
    (refs : List (String × String)) : List PullEvent × List (String × String) :=
  match refs with
  | [] => ([], [])
  | (r, sha256) :: rest =>
    let remote_ref := remote_name ++ "/" ++ r
    let original_rev := resolve_rev remote_ref
    let (evs, upd) := seed_refs remote_name resolve_rev rest
    if original_rev == some sha256 then
      (evs, upd)
    else
      (PullEvent.pushed_scan sha256 :: evs, (r, sha256) :: upd)

/-- Result of a modelled pull run: the event trace, the updated_refs
table, and the error if the run failed (none on success). -/
structure PullOutcome where
  trace : List PullEvent
  updated_refs : List (String × String)
  result : Option PullError
deriving DecidableEq, Repr

/-- The tail of ostree_builtin_pull (lines 1252-1446), starting after
load_remote_repo_config has produced the remote key file and with the
branch arguments already resolved into commits_to_fetch and
requested_refs_to_fetch (ref contents are fetched before this point in
the C code): read core.mode with default "bare", parse it, reject every
mode other than ARCHIVE_Z2, prepare the transaction, seed the scanner
queue from commits_to_fetch and from the refs whose resolved digest
differs from the local value, run the main loop, commit the transaction,
and finally write each updated ref.  main_loop_ok abstracts the outcome
of run_mainloop_monitor_fetcher and commit_transaction_ok the outcome of
ostree_repo_commit_transaction. -/
def ostree_builtin_pull (remote_config : GKeyFileData)
    (commits_to_fetch : List String)
    (requested_refs_to_fetch : List (String × String))
    (remote_name : String) (resolve_rev : String → Option String)
    (main_loop_ok : Bool) (commit_transaction_ok : Bool) : PullOutcome :=
  let trace := [PullEvent.fetched_config]
  let remote_mode_str :=
    ot_keyfile_get_value_with_default remote_config "core" "mode" "bare"
  match ostree_repo_mode_from_string remote_mode_str with
  | .error e => { trace := trace, updated_refs := [], result := some e }
  | .ok remote_mode =>
    if !(remote_mode == OstreeRepoMode.ARCHIVE_Z2) then
      { trace := trace, updated_refs := []
        result := some (.unsupportedMode remote_mode_str) }
    else
      let trace := trace ++ [PullEvent.prepared_transaction]
      let trace := trace ++ commits_to_fetch.map PullEvent.pushed_scan
      let (ref_evs, updated_refs) :=
        seed_refs remote_name resolve_rev requested_refs_to_fetch
      let trace := trace ++ ref_evs ++ [PullEvent.ran_main_loop]
      if !main_loop_ok then
        { trace := trace, updated_refs := updated_refs
          result := some (.corrupt "pull refs failed") }
      else if !commit_transaction_ok then
        { trace := trace, updated_refs := updated_refs
          result := some (.corrupt "commit transaction failed") }
      else
        { trace := trace ++ [PullEvent.committed_transaction]
            ++ updated_refs.map (fun p => PullEvent.wrote_ref remote_name p.1 p.2)
          updated_refs := updated_refs
          result := none }

/-!  Helper lemmas about the quiescence check. -/

/-- Running the quiescence check with no error, once the worker queues
exist, leaves every field except loop_quit unchanged and sets loop_quit
exactly when the latched scan-idle flag is set and all four outstanding
counters are zero. -/
theorem check_none_spec (st1 : MainState) (hq : st1.scan_queue_is_null = false)
    (hl : st1.loop_quit = false) (hc : st1.caught_error = false) :
    (check_outstanding_requests_handle_error st1 none).caught_error = false ∧
    (check_outstanding_requests_handle_error st1 none).metadata_scan_idle
      = st1.metadata_scan_idle ∧
    (check_outstanding_requests_handle_error st1 none).n_outstanding_metadata_fetches
      = st1.n_outstanding_metadata_fetches ∧
    (check_outstanding_requests_handle_error st1 none).n_outstanding_content_fetches
      = st1.n_outstanding_content_fetches ∧
    (check_outstanding_requests_handle_error st1 none).n_outstanding_metadata_stage_requests
      = st1.n_outstanding_metadata_stage_requests ∧
    (check_outstanding_requests_handle_error st1 none).n_outstanding_content_stage_requests
      = st1.n_outstanding_content_stage_requests ∧
    ((check_outstanding_requests_handle_error st1 none).loop_quit = true ↔
      (st1.metadata_scan_idle = true ∧
       st1.n_outstanding_metadata_fetches = 0 ∧
       st1.n_outstanding_content_fetches = 0 ∧
       st1.n_outstanding_metadata_stage_requests = 0 ∧
       st1.n_outstanding_content_stage_requests = 0)) := by
  simp only [check_outstanding_requests_handle_error, throw_async_error, hq,
    Bool.false_eq_true, if_false]
  by_cases hidle : st1.metadata_scan_idle = true
  · by_cases h1 : st1.n_outstanding_metadata_fetches = 0 <;>
      by_cases h2 : st1.n_outstanding_content_fetches = 0 <;>
      by_cases h3 : st1.n_outstanding_metadata_stage_requests = 0 <;>
      by_cases h4 : st1.n_outstanding_content_stage_requests = 0 <;>
      simp [hidle, h1, h2, h3, h4, hl, hc]
  · have hfalse : st1.metadata_scan_idle = false := by
      cases hsi : st1.metadata_scan_idle with
      | false => rfl
      | true => exact absurd hsi hidle
    simp [hfalse, hl, hc]

/-- The quiescence check with no error changes nothing besides
loop_quit. -/
theorem check_none_skeleton (st1 : MainState) :
    (check_outstanding_requests_handle_error st1 none).idle_serial = st1.idle_serial ∧
    (check_outstanding_requests_handle_error st1 none).scan_pushes = st1.scan_pushes ∧
    (check_outstanding_requests_handle_error st1 none).fetch_starts = st1.fetch_starts ∧
    (check_outstanding_requests_handle_error st1 none).metadata_scan_idle
      = st1.metadata_scan_idle ∧
    (check_outstanding_requests_handle_error st1 none).n_outstanding_metadata_fetches
      = st1.n_outstanding_metadata_fetches ∧
    (check_outstanding_requests_handle_error st1 none).n_outstanding_content_fetches
      = st1.n_outstanding_content_fetches ∧
    (check_outstanding_requests_handle_error st1 none).n_outstanding_metadata_stage_requests
      = st1.n_outstanding_metadata_stage_requests ∧
    (check_outstanding_requests_handle_error st1 none).n_outstanding_content_stage_requests
      = st1.n_outstanding_content_stage_requests := by
  simp only [check_outstanding_requests_handle_error, throw_async_error]
  split
  · split <;> simp
  · split <;> simp

/-!  Claim theorems: dispatcher (C1, C2, C3, C5). -/

/-- C1: after the worker queues exist, processing one fetch-queue
message makes the dispatcher quit its main loop with success exactly
when the resulting latched scan-idle flag is true and all four
outstanding counters (metadata fetches, content fetches, metadata stage
requests, content stage requests) are zero. -/
theorem dispatcher_quit_iff_scan_idle_and_counters_zero
    (st : MainState) (msg : FetchQueueMsg) (st' : MainState)
    (hq : st.scan_queue_is_null = false)
    (hl : st.loop_quit = false)
    (hc : st.caught_error = false)
    (h : on_metadata_objects_to_fetch_ready st msg = .ok st') :
    (st'.loop_quit = true ∧ st'.caught_error = false) ↔
      (st'.metadata_scan_idle = true ∧
       st'.n_outstanding_metadata_fetches = 0 ∧
       st'.n_outstanding_content_fetches = 0 ∧
       st'.n_outstanding_metadata_stage_requests = 0 ∧
       st'.n_outstanding_content_stage_requests = 0) := by
  have key : ∀ st1 : MainState, st1.scan_queue_is_null = false →
      st1.loop_quit = false → st1.caught_error = false →
      st' = check_outstanding_requests_handle_error st1 none →
      ((st'.loop_quit = true ∧ st'.caught_error = false) ↔
        (st'.metadata_scan_idle = true ∧
         st'.n_outstanding_metadata_fetches = 0 ∧
         st'.n_outstanding_content_fetches = 0 ∧
         st'.n_outstanding_metadata_stage_requests = 0 ∧
         st'.n_outstanding_content_stage_requests = 0)) := by
    intro st1 h1 h2 h3 heq
    obtain ⟨s1, s2, s3, s4, s5, s6, s7⟩ := check_none_spec st1 h1 h2 h3
    subst heq
    rw [s1, s2, s3, s4, s5, s6]
    constructor
    · rintro ⟨hquit, -⟩
      exact s7.mp hquit
    · intro hcond
      exact ⟨s7.mpr hcond, rfl⟩
  cases msg with
  | MAIN_IDLE s =>
    simp only [on_metadata_objects_to_fetch_ready] at h
    by_cases hs : (s == st.idle_serial) = true
    · rw [if_pos hs] at h
      by_cases hidle : st.metadata_scan_idle = true
      · rw [if_pos hidle] at h
        exact absurd h (by simp)
      · rw [if_neg hidle] at h
        simp only [DispatchResult.ok.injEq] at h
        exact key _ (by simp [hq]) (by simp [hl]) (by simp [hc]) h.symm
    · rw [if_neg hs] at h
      simp only [DispatchResult.ok.injEq] at h
      exact key _ hq hl hc h.symm
  | SCAN_IDLE s =>
    simp only [on_metadata_objects_to_fetch_ready] at h
    by_cases hidle : st.metadata_scan_idle = true
    · rw [hidle] at h
      simp only [Bool.not_true, Bool.false_eq_true, if_false,
        DispatchResult.ok.injEq] at h
      exact key _ hq hl hc h.symm
    · have hfalse : st.metadata_scan_idle = false := by
        cases hsi : st.metadata_scan_idle with
        | false => rfl
        | true => exact absurd hsi hidle
      rw [hfalse] at h
      simp only [Bool.not_false, if_true, DispatchResult.ok.injEq] at h
      exact key _ (by simp [hq]) (by simp [hl]) (by simp [hc]) h.symm
  | FETCH obj =>
    simp only [on_metadata_objects_to_fetch_ready] at h
    by_cases hmeta : OSTREE_OBJECT_TYPE_IS_META obj.2 = true
    · rw [hmeta] at h
      simp only [if_true, DispatchResult.ok.injEq] at h
      exact key _ (by simp [hq]) (by simp [hl]) (by simp [hc]) h.symm
    · have hfalse : OSTREE_OBJECT_TYPE_IS_META obj.2 = false := by
        cases hsi : OSTREE_OBJECT_TYPE_IS_META obj.2 with
        | false => rfl
        | true => exact absurd hsi hmeta
      rw [hfalse] at h
      simp only [Bool.false_eq_true, if_false, DispatchResult.ok.injEq] at h
      exact key _ (by simp [hq]) (by simp [hl]) (by simp [hc]) h.symm

/-- The dispatcher state after latching scan-idle from the initial
state: the quiescence check fires and quits the loop. -/
def mainStateAfterLatch : MainState :=
  { initMainState with metadata_scan_idle := true, loop_quit := true }

/-- Witness for C1 at a concrete input: from the fresh state, a matching
MAIN_IDLE latches the idle flag and the dispatcher quits. -/
theorem dispatcher_quit_iff_scan_idle_and_counters_zero_witness :
    (mainStateAfterLatch.loop_quit = true ∧ mainStateAfterLatch.caught_error = false) ↔
      (mainStateAfterLatch.metadata_scan_idle = true ∧
       mainStateAfterLatch.n_outstanding_metadata_fetches = 0 ∧
       mainStateAfterLatch.n_outstanding_content_fetches = 0 ∧
       mainStateAfterLatch.n_outstanding_metadata_stage_requests = 0 ∧
       mainStateAfterLatch.n_outstanding_content_stage_requests = 0) :=
  dispatcher_quit_iff_scan_idle_and_counters_zero initMainState (.MAIN_IDLE 0)
    mainStateAfterLatch rfl rfl rfl (by decide)

/-- A dispatcher state in which the scan-idle flag is already latched
and the idle serial is 5 (all counters zero). -/
def mainStateIdle5 : MainState :=
  { initMainState with metadata_scan_idle := true, idle_serial := 5 }

/-- C2 counterexample: with the scan-idle flag currently TRUE, a
dequeued SCAN_IDLE message leaves idle_serial unchanged at 5 and pushes
no MAIN_IDLE back to the scanner, contrary to the claim that a SCAN_IDLE
received while the flag is true increments the serial and sends
MAIN_IDLE.  (The code at lines 999-1005 guards the reissue with the
NEGATED flag.) -/
theorem scan_idle_reissue_counterexample :
    on_metadata_objects_to_fetch_ready mainStateIdle5 (.SCAN_IDLE 0) =
      .ok { mainStateIdle5 with loop_quit := true } ∧
    ({ mainStateIdle5 with loop_quit := true } : MainState).idle_serial = 5 ∧
    ({ mainStateIdle5 with loop_quit := true } : MainState).scan_pushes = [] := by
  decide

/-- C2 amended: when the dispatcher dequeues a SCAN_IDLE message and the
scan-idle flag is currently FALSE, it increments idle_serial (modulo
2^32) and pushes MAIN_IDLE(idle_serial) back to the scanner queue; when
the flag is TRUE it neither increments the serial nor sends MAIN_IDLE. -/
theorem scan_idle_reissue_iff_not_idle (st : MainState) (s : Nat) :
    (st.metadata_scan_idle = false →
      on_metadata_objects_to_fetch_ready st (.SCAN_IDLE s) =
        .ok (check_outstanding_requests_handle_error
              { st with
                  idle_serial := (st.idle_serial + 1) % GUINT_MOD
                  scan_pushes := st.scan_pushes
                    ++ [.MAIN_IDLE ((st.idle_serial + 1) % GUINT_MOD)] } none) ∧
      ∀ st1 : MainState,
        on_metadata_objects_to_fetch_ready st (.SCAN_IDLE s) = .ok st1 →
        st1.idle_serial = (st.idle_serial + 1) % GUINT_MOD ∧
        st1.scan_pushes = st.scan_pushes
          ++ [.MAIN_IDLE ((st.idle_serial + 1) % GUINT_MOD)]) ∧
    (st.metadata_scan_idle = true →
      on_metadata_objects_to_fetch_ready st (.SCAN_IDLE s) =
        .ok (check_outstanding_requests_handle_error st none) ∧
      ∀ st1 : MainState,
        on_metadata_objects_to_fetch_ready st (.SCAN_IDLE s) = .ok st1 →
        st1.idle_serial = st.idle_serial ∧ st1.scan_pushes = st.scan_pushes) := by
  constructor
  · intro hfalse
    have heq : on_metadata_objects_to_fetch_ready st (.SCAN_IDLE s) =
        .ok (check_outstanding_requests_handle_error
              { st with
                  idle_serial := (st.idle_serial + 1) % GUINT_MOD
                  scan_pushes := st.scan_pushes
                    ++ [.MAIN_IDLE ((st.idle_serial + 1) % GUINT_MOD)] } none) := by
      simp only [on_metadata_objects_to_fetch_ready, hfalse, Bool.not_false, if_true]
    refine ⟨heq, ?_⟩
    intro st1 h1
    rw [heq] at h1
    simp only [DispatchResult.ok.injEq] at h1
    obtain ⟨k1, k2, -⟩ := check_none_skeleton
      { st with
          idle_serial := (st.idle_serial + 1) % GUINT_MOD
          scan_pushes := st.scan_pushes
            ++ [.MAIN_IDLE ((st.idle_serial + 1) % GUINT_MOD)] }
    rw [← h1]
    exact ⟨k1, k2⟩
  · intro htrue
    have heq : on_metadata_objects_to_fetch_ready st (.SCAN_IDLE s) =
        .ok (check_outstanding_requests_handle_error st none) := by
      simp only [on_metadata_objects_to_fetch_ready, htrue, Bool.not_true,
        Bool.false_eq_true, if_false]
    refine ⟨heq, ?_⟩
    intro st1 h1
    rw [heq] at h1
    simp only [DispatchResult.ok.injEq] at h1
    obtain ⟨k1, k2, -⟩ := check_none_skeleton st
    rw [← h1]
    exact ⟨k1, k2⟩

/-- Witness for C2 amended at a concrete input: from the fresh state
(idle flag false, serial 0) the SCAN_IDLE handler bumps the serial to 1
and pushes MAIN_IDLE 1. -/
theorem scan_idle_reissue_iff_not_idle_witness :
    on_metadata_objects_to_fetch_ready initMainState (.SCAN_IDLE 0) =
      .ok (check_outstanding_requests_handle_error
            { initMainState with
                idle_serial := (initMainState.idle_serial + 1) % GUINT_MOD
                scan_pushes := initMainState.scan_pushes
                  ++ [.MAIN_IDLE ((initMainState.idle_serial + 1) % GUINT_MOD)] } none) :=
  ((scan_idle_reissue_iff_not_idle initMainState 0).1 rfl).1

/-- C3: a dequeued MAIN_IDLE(s) with s equal to the current idle_serial
and the scan-idle flag unset latches the flag to true; a MAIN_IDLE whose
serial differs from the current idle_serial changes none of the
dispatcher state (flag, serial, queue pushes, network requests, all four
outstanding counters): the handler is exactly the bare quiescence check
of the unchanged state. -/
theorem main_idle_latch_and_stale_discard (st : MainState) (s : Nat) :
    (s = st.idle_serial → st.metadata_scan_idle = false →
      ∀ st1 : MainState,
        on_metadata_objects_to_fetch_ready st (.MAIN_IDLE s) = .ok st1 →
        st1.metadata_scan_idle = true) ∧
    (s ≠ st.idle_serial →
      on_metadata_objects_to_fetch_ready st (.MAIN_IDLE s) =
        .ok (check_outstanding_requests_handle_error st none) ∧
      ∀ st1 : MainState,
        on_metadata_objects_to_fetch_ready st (.MAIN_IDLE s) = .ok st1 →
        st1.metadata_scan_idle = st.metadata_scan_idle ∧
        st1.idle_serial = st.idle_serial ∧
        st1.scan_pushes = st.scan_pushes ∧
        st1.fetch_starts = st.fetch_starts ∧
        st1.n_outstanding_metadata_fetches = st.n_outstanding_metadata_fetches ∧
        st1.n_outstanding_content_fetches = st.n_outstanding_content_fetches ∧
        st1.n_outstanding_metadata_stage_requests
          = st.n_outstanding_metadata_stage_requests ∧
        st1.n_outstanding_content_stage_requests
          = st.n_outstanding_content_stage_requests) := by
  constructor
  · intro hs hfalse st1 h1
    simp only [on_metadata_objects_to_fetch_ready, hs, beq_self_eq_true, if_true,
      hfalse, Bool.false_eq_true, if_false, DispatchResult.ok.injEq] at h1
    obtain ⟨-, -, -, k4, -⟩ :=
      check_none_skeleton { st with metadata_scan_idle := true }
    rw [← h1]
    rw [k4]
  · intro hs
    have hbeq : (s == st.idle_serial) = false := by
      simp [hs]
    have heq : on_metadata_objects_to_fetch_ready st (.MAIN_IDLE s) =
        .ok (check_outstanding_requests_handle_error st none) := by
      simp only [on_metadata_objects_to_fetch_ready, hbeq, Bool.false_eq_true, if_false]
    refine ⟨heq, ?_⟩
    intro st1 h1
    rw [heq] at h1
    simp only [DispatchResult.ok.injEq] at h1
    obtain ⟨k1, k2, k3, k4, k5, k6, k7, k8⟩ := check_none_skeleton st
    rw [← h1]
    exact ⟨k4, k1, k2, k3, k5, k6, k7, k8⟩

/-- Witness for C3 at a concrete input: from the fresh state (serial 0,
flag unset), MAIN_IDLE 0 latches the flag. -/
theorem main_idle_latch_and_stale_discard_witness :
    mainStateAfterLatch.metadata_scan_idle = true :=
  (main_idle_latch_and_stale_discard initMainState 0).1 rfl rfl
    mainStateAfterLatch (by decide)

/-- True when a stage-completion outcome records a Checksum pull error
on the coordinator (which is what the claim predicts for a digest
mismatch). -/
def records_checksum_error : DispatchResult → Bool
  | .ok st => st.caught_error && decide (st.async_error = some PullError.checksum)
  | .assertFailed _ => false

/-- C5 counterexample: a metadata stage completion whose recomputed
digest "aaaa" differs from the requested digest "bbbb" does NOT make the
pull fail with a Checksum error; the handler hits g_assert
(line 680) and aborts the process instead. -/
theorem stage_digest_mismatch_counterexample :
    on_metadata_staged initMainState (Except.ok "aaaa")
        ("bbbb", OstreeObjectType.COMMIT) =
      DispatchResult.assertFailed
        "assertion failed: strcmp of checksum and expected_checksum" ∧
    records_checksum_error
      (on_metadata_staged initMainState (Except.ok "aaaa")
        ("bbbb", OstreeObjectType.COMMIT)) = false ∧
    records_checksum_error
      (content_fetch_on_stage_complete initMainState (Except.ok "aaaa")
        ("bbbb", OstreeObjectType.FILE)) = false := by
  decide

/-- C5 amended: after a stage operation completes, the handlers compare
the digest recomputed by the store with the digest under which the
object was requested; when they are equal the metadata handler
re-enqueues SCAN for the object and the content handler counts it
fetched, but when they differ the handler aborts the whole process via
a failed g_assert — it neither records the staged object as fetched nor
fails the pull with a Checksum error. -/
theorem stage_digest_mismatch_aborts (st : MainState) (computed : String)
    (objm objc : ObjectName)
    (hmeta : OSTREE_OBJECT_TYPE_IS_META objm.2 = true)
    (hfile : objc.2 = OstreeObjectType.FILE)
    (hm : computed ≠ objm.1) (hc : computed ≠ objc.1) :
    on_metadata_staged st (Except.ok computed) objm =
      DispatchResult.assertFailed
        "assertion failed: strcmp of checksum and expected_checksum" ∧
    content_fetch_on_stage_complete st (Except.ok computed) objc =
      DispatchResult.assertFailed
        "assertion failed: strcmp of checksum and expected_checksum" ∧
    records_checksum_error (on_metadata_staged st (Except.ok computed) objm) = false ∧
    records_checksum_error
      (content_fetch_on_stage_complete st (Except.ok computed) objc) = false := by
  have hcm : (computed == objm.1) = false := by
    simp [hm]
  have hf : (objc.2 == OstreeObjectType.FILE) = true := by
    simp [hfile]
  have hcc : (computed == objc.1) = false := by
    simp [hc]
  have h1 : on_metadata_staged st (Except.ok computed) objm =
      DispatchResult.assertFailed
        "assertion failed: strcmp of checksum and expected_checksum" := by
    simp only [on_metadata_staged, hmeta, Bool.not_true, Bool.false_eq_true, if_false,
      hcm, Bool.not_false, if_true]
  have h2 : content_fetch_on_stage_complete st (Except.ok computed) objc =
      DispatchResult.assertFailed
        "assertion failed: strcmp of checksum and expected_checksum" := by
    simp only [content_fetch_on_stage_complete, hf, Bool.not_true, Bool.false_eq_true,
      if_false, hcc, Bool.not_false, if_true]
  exact ⟨h1, h2, by rw [h1]; rfl, by rw [h2]; rfl⟩

/-- Witness for C5 amended at concrete inputs. -/
theorem stage_digest_mismatch_aborts_witness :
    on_metadata_staged initMainState (Except.ok "aaaa")
        ("cccc", OstreeObjectType.DIR_TREE) =
      DispatchResult.assertFailed
        "assertion failed: strcmp of checksum and expected_checksum" ∧
    content_fetch_on_stage_complete initMainState (Except.ok "aaaa")
        ("cccc", OstreeObjectType.FILE) =
      DispatchResult.assertFailed
        "assertion failed: strcmp of checksum and expected_checksum" ∧
    records_checksum_error
      (on_metadata_staged initMainState (Except.ok "aaaa")
        ("cccc", OstreeObjectType.DIR_TREE)) = false ∧
    records_checksum_error
      (content_fetch_on_stage_complete initMainState (Except.ok "aaaa")
        ("cccc", OstreeObjectType.FILE)) = false :=
  stage_digest_mismatch_aborts initMainState "aaaa"
    ("cccc", OstreeObjectType.DIR_TREE) ("cccc", OstreeObjectType.FILE)
    (by decide) rfl (by decide) (by decide)

/-!  Helper lemmas about the coordinator model. -/

/-- Every event produced by the requested-refs seeding loop is a
pushed_scan event. -/
theorem seed_refs_events (rn : String) (rr : String → Option String)
    (refs : List (String × String)) :
    ∀ e ∈ (seed_refs rn rr refs).1, ∃ c, e = PullEvent.pushed_scan c := by
  induction refs with
  | nil => intro e he; simp [seed_refs] at he
  | cons hd tl ih =>
    intro e he
    obtain ⟨r, sha⟩ := hd
    simp only [seed_refs] at he
    rcases hseed : seed_refs rn rr tl with ⟨evs, upd⟩
    rw [hseed] at he
    by_cases hmatch : (rr (rn ++ "/" ++ r) == some sha) = true
    · rw [if_pos hmatch] at he
      exact ih e (by rw [hseed]; exact he)
    · rw [if_neg hmatch] at he
      rcases List.mem_cons.mp he with h | h
      · exact ⟨sha, h⟩
      · exact ih e (by rw [hseed]; exact h)

/-- A ref whose locally stored value already equals the fetched digest
is never recorded in updated_refs. -/
theorem seed_refs_skip (rn : String) (rr : String → Option String)
    (p : String × String) (hp : rr (rn ++ "/" ++ p.1) = some p.2)
    (refs : List (String × String)) :
    p ∉ (seed_refs rn rr refs).2 := by
  induction refs with
  | nil => simp [seed_refs]
  | cons hd tl ih =>
    obtain ⟨r, sha⟩ := hd
    simp only [seed_refs]
    rcases hseed : seed_refs rn rr tl with ⟨evs, upd⟩
    by_cases hmatch : (rr (rn ++ "/" ++ r) == some sha) = true
    · rw [if_pos hmatch]
      rw [hseed] at ih
      exact ih
    · rw [if_neg hmatch]
      intro hmem
      rcases List.mem_cons.mp hmem with h | h
      · apply hmatch
        rw [h] at hp
        simp only at hp
        simp [hp]
      · rw [hseed] at ih
        exact ih h

/-- When every requested ref already has its fetched digest stored
locally, the seeding loop produces no events and no updated refs. -/
theorem seed_refs_all_skip (rn : String) (rr : String → Option String)
    (refs : List (String × String))
    (h : ∀ p ∈ refs, rr (rn ++ "/" ++ p.1) = some p.2) :
    seed_refs rn rr refs = ([], []) := by
  induction refs with
  | nil => rfl
  | cons hd tl ih =>
    obtain ⟨r, sha⟩ := hd
    have hhd := h (r, sha) (List.mem_cons_self _ _)
    simp only [seed_refs]
    rw [ih (fun p hp => h p (List.mem_cons_of_mem _ hp))]
    simp [hhd]

/-- When the remote mode string resolves to a mode other than
ARCHIVE_Z2, the pull stops with unsupportedMode right after reading the
config: the trace shows no transaction, no seeded scan and no ref
write. -/
theorem pull_rejects_mode (remote_config : GKeyFileData)
    (commits : List String) (refs : List (String × String)) (rn : String)
    (rr : String → Option String) (lok cok : Bool) (mode : OstreeRepoMode)
    (hres : ostree_repo_mode_from_string
        (ot_keyfile_get_value_with_default remote_config "core" "mode" "bare")
        = .ok mode)
    (hne : mode ≠ OstreeRepoMode.ARCHIVE_Z2) :
    ostree_builtin_pull remote_config commits refs rn rr lok cok =
      { trace := [PullEvent.fetched_config]
        updated_refs := []
        result := some (.unsupportedMode
          (ot_keyfile_get_value_with_default remote_config "core" "mode" "bare")) } := by
  have hbeq : (mode == OstreeRepoMode.ARCHIVE_Z2) = false := by
    simp [hne]
  simp only [ostree_builtin_pull, hres, hbeq, Bool.not_false, if_true]

/-- C8: whenever the remote core.mode resolves to a repository mode
other than archive-z2, the pull fails with the unsupported-mode error
before opening a transaction or seeding (hence fetching) any object:
the event trace contains only the config fetch. -/
theorem pull_fails_unsupported_before_any_work (remote_config : GKeyFileData)
    (commits : List String) (refs : List (String × String)) (rn : String)
    (rr : String → Option String) (lok cok : Bool) (mode : OstreeRepoMode)
    (hres : ostree_repo_mode_from_string
        (ot_keyfile_get_value_with_default remote_config "core" "mode" "bare")
        = .ok mode)
    (hne : mode ≠ OstreeRepoMode.ARCHIVE_Z2) :
    (ostree_builtin_pull remote_config commits refs rn rr lok cok).result =
      some (.unsupportedMode
        (ot_keyfile_get_value_with_default remote_config "core" "mode" "bare")) ∧
    (ostree_builtin_pull remote_config commits refs rn rr lok cok).trace =
      [PullEvent.fetched_config] := by
  rw [pull_rejects_mode remote_config commits refs rn rr lok cok mode hres hne]
  exact ⟨rfl, rfl⟩

/-- Witness for C8: a remote config declaring mode "bare". -/
theorem pull_fails_unsupported_before_any_work_witness :
    (ostree_builtin_pull [("core", "mode", "bare")] [] [] "origin"
        (fun _ => none) true true).result =
      some (.unsupportedMode
        (ot_keyfile_get_value_with_default [("core", "mode", "bare")]
          "core" "mode" "bare")) ∧
    (ostree_builtin_pull [("core", "mode", "bare")] [] [] "origin"
        (fun _ => none) true true).trace = [PullEvent.fetched_config] :=
  pull_fails_unsupported_before_any_work [("core", "mode", "bare")] [] [] "origin"
    (fun _ => none) true true OstreeRepoMode.BARE rfl (by decide)

/-- C10: when the remote config parses but holds no core.mode key at
all, the mode string defaults to "bare" and the pull therefore fails
with the unsupported-mode error naming "bare"; the absent key is neither
treated as archive-z2 nor reported as a missing-key error. -/
theorem absent_mode_key_defaults_to_bare (remote_config : GKeyFileData)
    (commits : List String) (refs : List (String × String)) (rn : String)
    (rr : String → Option String) (lok cok : Bool)
    (hmissing : g_key_file_get_value remote_config "core" "mode" = none) :
    ot_keyfile_get_value_with_default remote_config "core" "mode" "bare" = "bare" ∧
    (ostree_builtin_pull remote_config commits refs rn rr lok cok).result =
      some (.unsupportedMode "bare") ∧
    (ostree_builtin_pull remote_config commits refs rn rr lok cok).trace =
      [PullEvent.fetched_config] := by
  have hdef : ot_keyfile_get_value_with_default remote_config "core" "mode" "bare"
      = "bare" := by
    simp only [ot_keyfile_get_value_with_default, hmissing]
  have hres : ostree_repo_mode_from_string
      (ot_keyfile_get_value_with_default remote_config "core" "mode" "bare")
      = .ok OstreeRepoMode.BARE := by
    rw [hdef]
    rfl
  have h := pull_rejects_mode remote_config commits refs rn rr lok cok
    OstreeRepoMode.BARE hres (by decide)
  rw [h]
  rw [hdef]
  exact ⟨rfl, rfl, rfl⟩

/-- Witness for C10: the empty remote config. -/
theorem absent_mode_key_defaults_to_bare_witness :
    ot_keyfile_get_value_with_default [] "core" "mode" "bare" = "bare" ∧
    (ostree_builtin_pull [] [] [] "origin" (fun _ => none) true true).result =
      some (.unsupportedMode "bare") ∧
    (ostree_builtin_pull [] [] [] "origin" (fun _ => none) true true).trace =
      [PullEvent.fetched_config] :=
  absent_mode_key_defaults_to_bare [] [] [] "origin" (fun _ => none) true true rfl

/-- In a trace of the form pre ++ committed :: writes where pre holds
no ref write and no commit event, any prefix that misses the commit
event also holds no ref write. -/
theorem no_write_before_commit (pre W : List PullEvent)
    (hpre : ∀ e ∈ pre, is_write_ref e = false) :
    ∀ n, PullEvent.committed_transaction ∉
        (pre ++ PullEvent.committed_transaction :: W).take n →
      ∀ e ∈ (pre ++ PullEvent.committed_transaction :: W).take n,
        is_write_ref e = false := by
  intro n hn e he
  rw [List.take_append_eq_append_take] at he hn
  by_cases hlen : n ≤ pre.length
  · have hzero : (PullEvent.committed_transaction :: W).take (n - pre.length) = [] := by
      rw [Nat.sub_eq_zero_of_le hlen, List.take_zero]
    rw [hzero, List.append_nil] at he
    exact hpre e (List.take_subset _ _ he)
  · exfalso
    apply hn
    obtain ⟨m, hm⟩ : ∃ m, n - pre.length = m + 1 :=
      ⟨n - pre.length - 1, by omega⟩
    rw [hm]
    apply List.mem_append_right
    simp [List.take_succ_cons]

/-- C7: refs are advanced only after the transaction commit succeeded:
when either the pull loop or the transaction commit fails the trace
holds no wrote_ref event at all, and in every run any trace prefix that
does not contain the committed_transaction event holds no wrote_ref
event. -/
theorem refs_written_only_after_commit (remote_config : GKeyFileData)
    (commits : List String) (refs : List (String × String)) (rn : String)
    (rr : String → Option String) (lok cok : Bool) :
    ((lok = false ∨ cok = false) →
      ∀ e ∈ (ostree_builtin_pull remote_config commits refs rn rr lok cok).trace,
        is_write_ref e = false) ∧
    (∀ n, PullEvent.committed_transaction ∉
        (ostree_builtin_pull remote_config commits refs rn rr lok cok).trace.take n →
      ∀ e ∈ (ostree_builtin_pull remote_config commits refs rn rr lok cok).trace.take n,
        is_write_ref e = false) := by
  rcases hres : ostree_repo_mode_from_string
      (ot_keyfile_get_value_with_default remote_config "core" "mode" "bare")
    with e0 | mode
  · have hall : ∀ e ∈ (ostree_builtin_pull remote_config commits refs rn rr
        lok cok).trace, is_write_ref e = false := by
      simp only [ostree_builtin_pull, hres]
      intro e he
      simp only [List.mem_singleton] at he
      subst he
      rfl
    exact ⟨fun _ => hall, fun n _ e he => hall e (List.take_subset _ _ he)⟩
  · by_cases hz : mode = OstreeRepoMode.ARCHIVE_Z2
    · subst hz
      rcases hseed : seed_refs rn rr refs with ⟨evs, upd⟩
      have hevs : ∀ e ∈ evs, ∃ c, e = PullEvent.pushed_scan c := by
        intro e he
        exact seed_refs_events rn rr refs e (by rw [hseed]; exact he)
      have hpre : ∀ e ∈ PullEvent.fetched_config :: PullEvent.prepared_transaction ::
          (commits.map PullEvent.pushed_scan ++ evs ++ [PullEvent.ran_main_loop]),
          is_write_ref e = false := by
        intro e he
        cases e with
        | wrote_ref a b c =>
          exfalso
          have hmem : PullEvent.wrote_ref a b c ∈ evs := by
            simpa using he
          obtain ⟨c2, hc2⟩ := hevs _ hmem
          simp at hc2
        | fetched_config => rfl
        | prepared_transaction => rfl
        | pushed_scan c => rfl
        | ran_main_loop => rfl
        | committed_transaction => rfl
      cases lok with
      | false =>
        have hall : ∀ e ∈ (ostree_builtin_pull remote_config commits refs rn rr
            false cok).trace, is_write_ref e = false := by
          simp only [ostree_builtin_pull, hres, hseed, beq_self_eq_true,
            Bool.not_true, Bool.not_false, Bool.false_eq_true, if_false, if_true]
          intro e he
          cases e with
          | wrote_ref a b c =>
            exfalso
            have hmem : PullEvent.wrote_ref a b c ∈ evs := by
              simpa using he
            obtain ⟨c2, hc2⟩ := hevs _ hmem
            simp at hc2
          | fetched_config => rfl
          | prepared_transaction => rfl
          | pushed_scan c => rfl
          | ran_main_loop => rfl
          | committed_transaction => rfl
        exact ⟨fun _ => hall, fun n _ e he => hall e (List.take_subset _ _ he)⟩
      | true =>
        cases cok with
        | false =>
          have hall : ∀ e ∈ (ostree_builtin_pull remote_config commits refs rn rr
              true false).trace, is_write_ref e = false := by
            simp only [ostree_builtin_pull, hres, hseed, beq_self_eq_true,
              Bool.not_true, Bool.not_false, Bool.false_eq_true, if_false, if_true]
            intro e he
            cases e with
            | wrote_ref a b c =>
              exfalso
              have hmem : PullEvent.wrote_ref a b c ∈ evs := by
                simpa using he
              obtain ⟨c2, hc2⟩ := hevs _ hmem
              simp at hc2
            | fetched_config => rfl
            | prepared_transaction => rfl
            | pushed_scan c => rfl
            | ran_main_loop => rfl
            | committed_transaction => rfl
          exact ⟨fun _ => hall, fun n _ e he => hall e (List.take_subset _ _ he)⟩
        | true =>
          have htr : (ostree_builtin_pull remote_config commits refs rn rr
              true true).trace =
              (PullEvent.fetched_config :: PullEvent.prepared_transaction ::
                (commits.map PullEvent.pushed_scan ++ evs ++ [PullEvent.ran_main_loop]))
              ++ PullEvent.committed_transaction ::
                upd.map (fun p => PullEvent.wrote_ref rn p.1 p.2) := by
            simp only [ostree_builtin_pull, hres, hseed, beq_self_eq_true,
              Bool.not_true, Bool.not_false, Bool.false_eq_true, if_false, if_true]
            simp [List.append_assoc]
          constructor
          · rintro (h | h) <;> exact absurd h (by simp)
          · rw [htr]
            exact no_write_before_commit _ _ hpre
    · have hpull := pull_rejects_mode remote_config commits refs rn rr lok cok
        mode hres hz
      have hall : ∀ e ∈ (ostree_builtin_pull remote_config commits refs rn rr
          lok cok).trace, is_write_ref e = false := by
        rw [hpull]
        intro e he
        simp only [List.mem_singleton] at he
        subst he
        rfl
      exact ⟨fun _ => hall, fun n _ e he => hall e (List.take_subset _ _ he)⟩

/-- Witness for C7 at a concrete input: a failed pull loop writes no
ref. -/
theorem refs_written_only_after_commit_witness :
    ∀ e ∈ (ostree_builtin_pull [("core", "mode", "archive-z2")] [] []
        "origin" (fun _ => none) false true).trace,
      is_write_ref e = false :=
  (refs_written_only_after_commit [("core", "mode", "archive-z2")] [] []
    "origin" (fun _ => none) false true).1 (Or.inl rfl)

/-- C6: a requested ref whose fetched digest already equals the locally
stored value of remote/ref is never put into updated_refs and its ref
is never written; when every requested ref is unchanged and no explicit
commit was requested, the coordinator seeds no SCAN work at all, writes
no ref, and running the scanner on the (empty) seed list leaves the
scanner state untouched and pushes no FETCH: the pull performs zero
object fetches. -/
theorem unchanged_refs_produce_no_work :
    (∀ (remote_config : GKeyFileData) (commits : List String)
        (refs : List (String × String)) (rn : String)
        (rr : String → Option String) (lok cok : Bool) (p : String × String),
        p ∈ refs → rr (rn ++ "/" ++ p.1) = some p.2 →
        p ∉ (ostree_builtin_pull remote_config commits refs rn rr
              lok cok).updated_refs ∧
        PullEvent.wrote_ref rn p.1 p.2 ∉
          (ostree_builtin_pull remote_config commits refs rn rr lok cok).trace) ∧
    (∀ (remote_config : GKeyFileData) (refs : List (String × String))
        (rn : String) (rr : String → Option String) (lok cok : Bool),
        (∀ p ∈ refs, rr (rn ++ "/" ++ p.1) = some p.2) →
        (∀ c, PullEvent.pushed_scan c ∉
          (ostree_builtin_pull remote_config [] refs rn rr lok cok).trace) ∧
        (ostree_builtin_pull remote_config [] refs rn rr lok cok).updated_refs
          = [] ∧
        (∀ r a b, PullEvent.wrote_ref r a b ∉
          (ostree_builtin_pull remote_config [] refs rn rr lok cok).trace) ∧
        (∀ (env : PullEnv) (st : ScanState),
          run_scan_list env
            (((ostree_builtin_pull remote_config [] refs rn rr
                lok cok).trace.filterMap seed_digest).map
              (fun c => (c, OstreeObjectType.COMMIT))) st = (st, none))) := by
  constructor
  · intro remote_config commits refs rn rr lok cok p hmem hp
    have hskip : p ∉ (seed_refs rn rr refs).2 := seed_refs_skip rn rr p hp refs
    rcases hres : ostree_repo_mode_from_string
        (ot_keyfile_get_value_with_default remote_config "core" "mode" "bare")
      with e0 | mode
    · constructor <;> simp [ostree_builtin_pull, hres]
    · by_cases hz : mode = OstreeRepoMode.ARCHIVE_Z2
      · subst hz
        rcases hseed : seed_refs rn rr refs with ⟨evs, upd⟩
        have hupd : p ∉ upd := by
          rw [hseed] at hskip
          exact hskip
        have hevs : ∀ e ∈ evs, ∃ c, e = PullEvent.pushed_scan c := by
          intro e he
          exact seed_refs_events rn rr refs e (by rw [hseed]; exact he)
        have hwev : PullEvent.wrote_ref rn p.1 p.2 ∉ evs := by
          intro hw
          obtain ⟨c2, hc2⟩ := hevs _ hw
          simp at hc2
        cases lok with
        | false =>
          constructor
          · simp only [ostree_builtin_pull, hres, hseed, beq_self_eq_true,
              Bool.not_true, Bool.not_false, Bool.false_eq_true, if_false, if_true]
            exact hupd
          · simp only [ostree_builtin_pull, hres, hseed, beq_self_eq_true,
              Bool.not_true, Bool.not_false, Bool.false_eq_true, if_false, if_true]
            intro hw
            apply hwev
            simpa using hw
        | true =>
          cases cok with
          | false =>
            constructor
            · simp only [ostree_builtin_pull, hres, hseed, beq_self_eq_true,
                Bool.not_true, Bool.not_false, Bool.false_eq_true, if_false, if_true]
              exact hupd
            · simp only [ostree_builtin_pull, hres, hseed, beq_self_eq_true,
                Bool.not_true, Bool.not_false, Bool.false_eq_true, if_false, if_true]
              intro hw
              apply hwev
              simpa using hw
          | true =>
            have hmap : PullEvent.wrote_ref rn p.1 p.2 ∉
                upd.map (fun q => PullEvent.wrote_ref rn q.1 q.2) := by
              intro hm
              obtain ⟨q, hq, heq⟩ := List.mem_map.mp hm
              simp only [PullEvent.wrote_ref.injEq] at heq
              have hqp : q = p := Prod.ext heq.2.1 heq.2.2
              rw [hqp] at hq
              exact hupd hq
            constructor
            · simp only [ostree_builtin_pull, hres, hseed, beq_self_eq_true,
                Bool.not_true, Bool.not_false, Bool.false_eq_true, if_false, if_true]
              exact hupd
            · simp only [ostree_builtin_pull, hres, hseed, beq_self_eq_true,
                Bool.not_true, Bool.not_false, Bool.false_eq_true, if_false, if_true]
              intro hw
              rcases List.mem_append.mp hw with hw | hw
              · rcases List.mem_append.mp hw with hw | hw
                · rcases List.mem_append.mp hw with hw | hw
                  · rcases List.mem_append.mp hw with hw | hw
                    · rcases List.mem_append.mp hw with hw | hw
                      · simp at hw
                      · obtain ⟨c, -, heq⟩ := List.mem_map.mp hw
                        simp at heq
                    · exact hwev hw
                  · simp at hw
                · simp at hw
              · exact hmap hw
      · rw [pull_rejects_mode remote_config commits refs rn rr lok cok mode hres hz]
        constructor <;> simp
  · intro remote_config refs rn rr lok cok hall
    have hseedall : seed_refs rn rr refs = ([], []) :=
      seed_refs_all_skip rn rr refs hall
    rcases hres : ostree_repo_mode_from_string
        (ot_keyfile_get_value_with_default remote_config "core" "mode" "bare")
      with e0 | mode
    · refine ⟨?_, ?_, ?_, ?_⟩ <;>
        simp [ostree_builtin_pull, hres, seed_digest, run_scan_list]
    · by_cases hz : mode = OstreeRepoMode.ARCHIVE_Z2
      · subst hz
        cases lok <;> cases cok <;>
          refine ⟨?_, ?_, ?_, ?_⟩ <;>
          simp [ostree_builtin_pull, hres, hseedall, seed_digest, run_scan_list]
      · rw [pull_rejects_mode remote_config [] refs rn rr lok cok mode hres hz]
        refine ⟨?_, ?_, ?_, ?_⟩ <;> simp [seed_digest, run_scan_list]

/-- Witness for C6 at a concrete input: one ref already up to date. -/
theorem unchanged_refs_produce_no_work_witness :
    ("main", "abcd") ∉ (ostree_builtin_pull [("core", "mode", "archive-z2")] []
        [("main", "abcd")] "origin" (fun _ => some "abcd")
        true true).updated_refs ∧
    (∀ c, PullEvent.pushed_scan c ∉ (ostree_builtin_pull
        [("core", "mode", "archive-z2")] [] [("main", "abcd")] "origin"
        (fun _ => some "abcd") true true).trace) ∧
    (ostree_builtin_pull [("core", "mode", "archive-z2")] [] [("main", "abcd")]
        "origin" (fun _ => some "abcd") true true).updated_refs = [] :=
  ⟨(unchanged_refs_produce_no_work.1 [("core", "mode", "archive-z2")] []
      [("main", "abcd")] "origin" (fun _ => some "abcd") true true
      ("main", "abcd") (by decide) rfl).1,
   (unchanged_refs_produce_no_work.2 [("core", "mode", "archive-z2")]
      [("main", "abcd")] "origin" (fun _ => some "abcd") true true
      (by intro p hp; simp at hp; rw [hp])).1,
   ((unchanged_refs_produce_no_work.2 [("core", "mode", "archive-z2")]
      [("main", "abcd")] "origin" (fun _ => some "abcd") true true
      (by intro p hp; simp at hp; rw [hp])).2).1⟩

/-!  Infrastructure for the no-redundant-fetch and recursion-bound
claims: counting FETCH messages per digest, the requested-set invariant,
and a step relation between scanner states. -/

/-- Number of metadata FETCH messages for digest d in a message list. -/
def countMetaIn (l : List ObjectName) (d : String) : Nat :=
  (l.filter (fun o => o.1 == d && OSTREE_OBJECT_TYPE_IS_META o.2)).length

/-- Number of content FETCH messages for digest d in a message list. -/
def countContentIn (l : List ObjectName) (d : String) : Nat :=
  (l.filter (fun o => o.1 == d && o.2 == OstreeObjectType.FILE)).length

/-- The requested-set invariant: a digest absent from a requested ledger
has no FETCH message of that class, and no digest ever has more than one
FETCH message of a class. -/
def ReqInv (st : ScanState) : Prop :=
  ∀ d : String,
    (d ∉ st.requested_metadata → countMetaIn st.fetch_pushes d = 0) ∧
    countMetaIn st.fetch_pushes d ≤ 1 ∧
    (d ∉ st.requested_content → countContentIn st.fetch_pushes d = 0) ∧
    countContentIn st.fetch_pushes d ≤ 1

/-- What one scanner call preserves: the requested ledgers only grow and
every new ghost load event sits at depth at most OSTREE_MAX_RECURSION. -/
def ScanMono (st st' : ScanState) : Prop :=
  (∀ x, x ∈ st.requested_metadata → x ∈ st'.requested_metadata) ∧
  (∀ x, x ∈ st.requested_content → x ∈ st'.requested_content) ∧
  (∀ e, e ∈ st'.load_events → e ∈ st.load_events ∨ e.2.2 ≤ OSTREE_MAX_RECURSION)

theorem ScanMono.rfl (st : ScanState) : ScanMono st st :=
  ⟨fun _ h => h, fun _ h => h, fun _ h => Or.inl h⟩

theorem ScanMono.trans {a b c : ScanState} (h1 : ScanMono a b)
    (h2 : ScanMono b c) : ScanMono a c := by
  obtain ⟨m1, m2, m3⟩ := h1
  obtain ⟨n1, n2, n3⟩ := h2
  refine ⟨fun x hx => n1 x (m1 x hx), fun x hx => n2 x (m2 x hx), ?_⟩
  intro e he
  rcases n3 e he with h | h
  · exact m3 e h
  · exact Or.inr h

theorem countMetaIn_append (l1 l2 : List ObjectName) (d : String) :
    countMetaIn (l1 ++ l2) d = countMetaIn l1 d + countMetaIn l2 d := by
  simp [countMetaIn, List.filter_append]

theorem countContentIn_append (l1 l2 : List ObjectName) (d : String) :
    countContentIn (l1 ++ l2) d = countContentIn l1 d + countContentIn l2 d := by
  simp [countContentIn, List.filter_append]

theorem countMetaIn_single_meta (csum : String) (t : OstreeObjectType)
    (d : String) (h : OSTREE_OBJECT_TYPE_IS_META t = true) :
    countMetaIn [(csum, t)] d = if csum = d then 1 else 0 := by
  by_cases hd : csum = d <;> simp [countMetaIn, hd, h]

theorem countContentIn_single_meta (csum : String) (t : OstreeObjectType)
    (d : String) (h : OSTREE_OBJECT_TYPE_IS_META t = true) :
    countContentIn [(csum, t)] d = 0 := by
  have : (t == OstreeObjectType.FILE) = false := by
    cases t <;> simp_all [OSTREE_OBJECT_TYPE_IS_META]
  simp [countContentIn, this]

theorem countMetaIn_single_file (csum d : String) :
    countMetaIn [(csum, OstreeObjectType.FILE)] d = 0 := by
  simp [countMetaIn, OSTREE_OBJECT_TYPE_IS_META]

theorem countContentIn_single_file (csum d : String) :
    countContentIn [(csum, OstreeObjectType.FILE)] d = if csum = d then 1 else 0 := by
  by_cases hd : csum = d <;> simp [countContentIn, hd]

/-- Pushing a metadata FETCH for a digest not yet in requested_metadata,
while inserting the digest, preserves the invariant. -/
theorem ReqInv_push_meta (st : ScanState) (csum : String) (t : OstreeObjectType)
    (hmeta : OSTREE_OBJECT_TYPE_IS_META t = true)
    (hguard : csum ∉ st.requested_metadata) (hinv : ReqInv st) :
    ReqInv { st with
      requested_metadata := st.requested_metadata ++ [csum]
      fetch_pushes := st.fetch_pushes ++ [(csum, t)] } := by
  intro d
  obtain ⟨a1, a2, a3, a4⟩ := hinv d
  have hm := countMetaIn_append st.fetch_pushes [(csum, t)] d
  have hc := countContentIn_append st.fetch_pushes [(csum, t)] d
  rw [countMetaIn_single_meta csum t d hmeta] at hm
  rw [countContentIn_single_meta csum t d hmeta] at hc
  by_cases hd : csum = d
  · subst hd
    have hz : countMetaIn st.fetch_pushes csum = 0 := a1 hguard
    refine ⟨?_, ?_, ?_, ?_⟩
    · intro hmem
      exfalso
      exact hmem (by simp)
    · show countMetaIn (st.fetch_pushes ++ [(csum, t)]) csum ≤ 1
      rw [hm, hz]
      simp
    · intro hmem
      show countContentIn (st.fetch_pushes ++ [(csum, t)]) csum = 0
      rw [hc, a3 hmem]
    · show countContentIn (st.fetch_pushes ++ [(csum, t)]) csum ≤ 1
      rw [hc]
      simpa using a4
  · refine ⟨?_, ?_, ?_, ?_⟩
    · intro hmem
      show countMetaIn (st.fetch_pushes ++ [(csum, t)]) d = 0
      rw [hm, if_neg hd, a1]
      intro hdm
      exact hmem (by simp [hdm])
    · show countMetaIn (st.fetch_pushes ++ [(csum, t)]) d ≤ 1
      rw [hm, if_neg hd]
      simpa using a2
    · intro hmem
      show countContentIn (st.fetch_pushes ++ [(csum, t)]) d = 0
      rw [hc, a3 hmem]
    · show countContentIn (st.fetch_pushes ++ [(csum, t)]) d ≤ 1
      rw [hc]
      simpa using a4

/-- Pushing a content FETCH for a digest not yet in requested_content,
while inserting the digest, preserves the invariant. -/
theorem ReqInv_push_content (st : ScanState) (csum : String)
    (hguard : csum ∉ st.requested_content) (hinv : ReqInv st) :
    ReqInv { st with
      requested_content := st.requested_content ++ [csum]
      fetch_pushes := st.fetch_pushes ++ [(csum, OstreeObjectType.FILE)] } := by
  intro d
  obtain ⟨a1, a2, a3, a4⟩ := hinv d
  have hm := countMetaIn_append st.fetch_pushes [(csum, OstreeObjectType.FILE)] d
  have hc := countContentIn_append st.fetch_pushes [(csum, OstreeObjectType.FILE)] d
  rw [countMetaIn_single_file csum d] at hm
  rw [countContentIn_single_file csum d] at hc
  by_cases hd : csum = d
  · subst hd
    have hz : countContentIn st.fetch_pushes csum = 0 := a3 hguard
    refine ⟨?_, ?_, ?_, ?_⟩
    · intro hmem
      show countMetaIn (st.fetch_pushes ++ [(csum, OstreeObjectType.FILE)]) csum = 0
      rw [hm, a1 hmem]
    · show countMetaIn (st.fetch_pushes ++ [(csum, OstreeObjectType.FILE)]) csum ≤ 1
      rw [hm]
      simpa using a2
    · intro hmem
      exfalso
      exact hmem (by simp)
    · show countContentIn (st.fetch_pushes ++ [(csum, OstreeObjectType.FILE)]) csum ≤ 1
      rw [hc, hz]
      simp
  · refine ⟨?_, ?_, ?_, ?_⟩
    · intro hmem
      show countMetaIn (st.fetch_pushes ++ [(csum, OstreeObjectType.FILE)]) d = 0
      rw [hm, a1 hmem]
    · show countMetaIn (st.fetch_pushes ++ [(csum, OstreeObjectType.FILE)]) d ≤ 1
      rw [hm]
      simpa using a2
    · intro hmem
      show countContentIn (st.fetch_pushes ++ [(csum, OstreeObjectType.FILE)]) d = 0
      rw [hc, if_neg hd, a3]
      intro hdm
      exact hmem (by simp [hdm])
    · show countContentIn (st.fetch_pushes ++ [(csum, OstreeObjectType.FILE)]) d ≤ 1
      rw [hc, if_neg hd]
      simpa using a4

theorem ScanMono_push_meta (st : ScanState) (csum : String) (t : OstreeObjectType) :
    ScanMono st { st with
      requested_metadata := st.requested_metadata ++ [csum]
      fetch_pushes := st.fetch_pushes ++ [(csum, t)] } :=
  ⟨fun _ h => List.mem_append_left _ h, fun _ h => h, fun _ he => Or.inl he⟩

theorem ScanMono_push_content (st : ScanState) (csum : String) :
    ScanMono st { st with
      requested_content := st.requested_content ++ [csum]
      fetch_pushes := st.fetch_pushes ++ [(csum, OstreeObjectType.FILE)] } :=
  ⟨fun _ h => h, fun _ h => List.mem_append_left _ h, fun _ he => Or.inl he⟩

/-- Appending a ghost load event at a depth within the recursion bound
is a legal scanner step. -/
theorem ScanMono_load_push (st : ScanState) (t : OstreeObjectType) (c : String)
    (depth : Nat) (hd : ¬ depth > OSTREE_MAX_RECURSION) :
    ScanMono st { st with load_events := st.load_events ++ [(t, c, depth)] } := by
  refine ⟨fun _ h => h, fun _ h => h, ?_⟩
  intro e he
  rcases List.mem_append.mp he with h | h
  · exact Or.inl h
  · simp only [List.mem_singleton] at h
    subst h
    refine Or.inr ?_
    show depth ≤ OSTREE_MAX_RECURSION
    omega

/-- The files loop of scan_dirtree_object is a legal scanner step and
preserves the requested-set invariant. -/
theorem scan_dirtree_files_ok (env : PullEnv) (files : List (String × String)) :
    ∀ st : ScanState, ScanMono st (scan_dirtree_files env files st).1 ∧
      (ReqInv st → ReqInv (scan_dirtree_files env files st).1) := by
  induction files with
  | nil =>
    intro st
    exact ⟨ScanMono.rfl st, id⟩
  | cons hd rest ih =>
    intro st
    obtain ⟨filename, fc⟩ := hd
    simp only [scan_dirtree_files]
    by_cases hv : (!ot_util_filename_validate filename) = true
    · rw [if_pos hv]
      exact ⟨ScanMono.rfl st, id⟩
    · rw [if_neg hv]
      by_cases hg : (!env.repo.hasObject OstreeObjectType.FILE fc
          && !(st.requested_content.contains fc)) = true
      · rw [if_pos hg]
        have hguard : fc ∉ st.requested_content := by
          intro hmem
          have hcon : st.requested_content.contains fc = true := by
            simpa using hmem
          rw [hcon] at hg
          simp at hg
        obtain ⟨m1, i1⟩ := ih { st with
          requested_content := st.requested_content ++ [fc]
          fetch_pushes := st.fetch_pushes ++ [(fc, OstreeObjectType.FILE)] }
        refine ⟨ScanMono.trans (ScanMono_push_content st fc) m1, ?_⟩
        intro hinv
        exact i1 (ReqInv_push_content st fc hguard hinv)
      · rw [if_neg hg]
        exact ih st

/-- Master step lemma, by the mutual functional induction of the five
scanner functions: every scanner call is a legal step (requested sets
grow, new load events stay within the recursion bound) and preserves the
requested-set invariant; for scan_one_metadata_object the invariant part
is conditional on the object type being metadata (the scanner is only
ever asked to scan metadata names). -/
theorem scan_step_master (env : PullEnv) :
    (∀ (csum : String) (objtype : OstreeObjectType) (depth : Nat) (st : ScanState),
      ScanMono st (scan_one_metadata_object env csum objtype depth st).1 ∧
      (OSTREE_OBJECT_TYPE_IS_META objtype = true → ReqInv st →
        ReqInv (scan_one_metadata_object env csum objtype depth st).1)) ∧
    (∀ (checksum : String) (depth : Nat) (st : ScanState),
      ScanMono st (scan_dirtree_object env checksum depth st).1 ∧
      (ReqInv st → ReqInv (scan_dirtree_object env checksum depth st).1)) ∧
    (∀ (dirs : List (String × String × String)) (depth : Nat) (st : ScanState),
      ScanMono st (scan_dirtree_dirs env dirs depth st).1 ∧
      (ReqInv st → ReqInv (scan_dirtree_dirs env dirs depth st).1)) ∧
    (∀ (checksum : String) (depth : Nat) (st : ScanState),
      ScanMono st (scan_commit_object env checksum depth st).1 ∧
      (ReqInv st → ReqInv (scan_commit_object env checksum depth st).1)) ∧
    (∀ (related : List (String × String)) (depth : Nat) (st : ScanState),
      ScanMono st (scan_commit_related env related depth st).1 ∧
      (ReqInv st → ReqInv (scan_commit_related env related depth st).1)) := by
  apply scan_one_metadata_object.mutual_induct env
  -- scan_one: object already scanned
  · intro csum objtype depth st
    dsimp only []
    intro hcon
    have hcon2 : (csum, objtype) ∈ st.scanned_metadata := by
      simpa using hcon
    have hres : scan_one_metadata_object env csum objtype depth st = (st, none) := by
      simp [scan_one_metadata_object.eq_def, hcon2]
    rw [hres]
    exact ⟨ScanMono.rfl st, fun _ h => h⟩
  -- scan_one: missing and not requested: push FETCH
  · intro csum objtype depth st
    dsimp only []
    intro hns hg
    have hns3 : (csum, objtype) ∉ st.scanned_metadata := by
      simpa using hns
    obtain ⟨hnst, hnreq⟩ : env.repo.hasObject objtype csum = false
        ∧ csum ∉ st.requested_metadata := by
      simpa using hg
    have hres : scan_one_metadata_object env csum objtype depth st =
        ({ st with
            requested_metadata := st.requested_metadata ++ [csum]
            fetch_pushes := st.fetch_pushes ++ [(csum, objtype)] }, none) := by
      simp [scan_one_metadata_object.eq_def, hns3, hnst, hnreq]
    rw [hres]
    refine ⟨ScanMono_push_meta st csum objtype, ?_⟩
    intro hmeta hinv
    exact ReqInv_push_meta st csum objtype hmeta hnreq hinv
  -- scan_one: stored COMMIT, scan_commit fails
  · intro csum depth st
    dsimp only []
    intro st1 e heq hns hgneg hstored ih4
    have hns3 : (csum, OstreeObjectType.COMMIT) ∉ st.scanned_metadata := by
      simpa using hns
    have hres : scan_one_metadata_object env csum OstreeObjectType.COMMIT depth st =
        (st1, some e) := by
      simp [scan_one_metadata_object.eq_def, hns3, hstored, heq]
    rw [hres]
    obtain ⟨m4, i4⟩ := ih4
    rw [heq] at m4 i4
    exact ⟨m4, fun _ hinv => i4 hinv⟩
  -- scan_one: stored COMMIT, scan_commit succeeds
  · intro csum depth st
    dsimp only []
    intro st1 heq hns hgneg hstored ih4
    have hns3 : (csum, OstreeObjectType.COMMIT) ∉ st.scanned_metadata := by
      simpa using hns
    have hres : scan_one_metadata_object env csum OstreeObjectType.COMMIT depth st =
        ({ st1 with
            scanned_metadata := st1.scanned_metadata ++ [(csum, OstreeObjectType.COMMIT)]
            n_scanned_metadata := (st1.n_scanned_metadata + 1) % GUINT_MOD }, none) := by
      simp [scan_one_metadata_object.eq_def, hns3, hstored, heq]
    rw [hres]
    obtain ⟨m4, i4⟩ := ih4
    rw [heq] at m4 i4
    refine ⟨ScanMono.trans m4 ⟨fun _ h => h, fun _ h => h, fun _ he => Or.inl he⟩, ?_⟩
    intro _ hinv
    exact i4 hinv
  -- scan_one: stored DIR_META leaf
  · intro csum depth st
    dsimp only []
    intro hns hgneg hstored
    have hns3 : (csum, OstreeObjectType.DIR_META) ∉ st.scanned_metadata := by
      simpa using hns
    have hres : scan_one_metadata_object env csum OstreeObjectType.DIR_META depth st =
        ({ st with
            scanned_metadata := st.scanned_metadata ++ [(csum, OstreeObjectType.DIR_META)]
            n_scanned_metadata := (st.n_scanned_metadata + 1) % GUINT_MOD }, none) := by
      simp [scan_one_metadata_object.eq_def, hns3, hstored]
    rw [hres]
    exact ⟨⟨fun _ h => h, fun _ h => h, fun _ he => Or.inl he⟩, fun _ hinv => hinv⟩
  -- scan_one: stored DIR_TREE, scan_dirtree fails
  · intro csum depth st
    dsimp only []
    intro st1 e heq hns hgneg hstored ih2
    have hns3 : (csum, OstreeObjectType.DIR_TREE) ∉ st.scanned_metadata := by
      simpa using hns
    have hres : scan_one_metadata_object env csum OstreeObjectType.DIR_TREE depth st =
        (st1, some e) := by
      simp [scan_one_metadata_object.eq_def, hns3, hstored, heq]
    rw [hres]
    obtain ⟨m2, i2⟩ := ih2
    rw [heq] at m2 i2
    exact ⟨m2, fun _ hinv => i2 hinv⟩
  -- scan_one: stored DIR_TREE, scan_dirtree succeeds
  · intro csum depth st
    dsimp only []
    intro st1 heq hns hgneg hstored ih2
    have hns3 : (csum, OstreeObjectType.DIR_TREE) ∉ st.scanned_metadata := by
      simpa using hns
    have hres : scan_one_metadata_object env csum OstreeObjectType.DIR_TREE depth st =
        ({ st1 with
            scanned_metadata := st1.scanned_metadata ++ [(csum, OstreeObjectType.DIR_TREE)]
            n_scanned_metadata := (st1.n_scanned_metadata + 1) % GUINT_MOD }, none) := by
      simp [scan_one_metadata_object.eq_def, hns3, hstored, heq]
    rw [hres]
    obtain ⟨m2, i2⟩ := ih2
    rw [heq] at m2 i2
    refine ⟨ScanMono.trans m2 ⟨fun _ h => h, fun _ h => h, fun _ he => Or.inl he⟩, ?_⟩
    intro _ hinv
    exact i2 hinv
  -- scan_one: stored FILE: g_assert_not_reached
  · intro csum depth st
    dsimp only []
    intro hns hgneg hstored
    have hns3 : (csum, OstreeObjectType.FILE) ∉ st.scanned_metadata := by
      simpa using hns
    have hres : scan_one_metadata_object env csum OstreeObjectType.FILE depth st =
        (st, some PullError.assertionNotReached) := by
      simp [scan_one_metadata_object.eq_def, hns3, hstored]
    rw [hres]
    exact ⟨ScanMono.rfl st, fun hmeta => absurd hmeta (by decide)⟩
  -- scan_one: not stored but already requested
  · intro csum objtype depth st
    dsimp only []
    intro hns hgneg hnstored
    have hns3 : (csum, objtype) ∉ st.scanned_metadata := by
      simpa using hns
    have hnst : env.repo.hasObject objtype csum = false := by
      simpa using hnstored
    have hreq : csum ∈ st.requested_metadata := by
      by_cases hr : csum ∈ st.requested_metadata
      · exact hr
      · exfalso
        apply hgneg
        simpa [hnst] using hr
    have hres : scan_one_metadata_object env csum objtype depth st = (st, none) := by
      simp [scan_one_metadata_object.eq_def, hns3, hnst, hreq]
    rw [hres]
    exact ⟨ScanMono.rfl st, fun _ h => h⟩
  -- scan_dirtree: recursion bound exceeded
  · intro checksum depth st hd
    have hres : scan_dirtree_object env checksum depth st =
        (st, some (PullError.corrupt "Exceeded maximum recursion")) := by
      simp only [scan_dirtree_object]
      rw [dif_pos hd]
    rw [hres]
    exact ⟨ScanMono.rfl st, fun h => h⟩
  -- scan_dirtree: load fails
  · intro checksum depth st hnd hload
    have hres : scan_dirtree_object env checksum depth st =
        (st, some (PullError.loadFailed OstreeObjectType.DIR_TREE checksum)) := by
      simp only [scan_dirtree_object]
      rw [dif_neg hnd, hload]
    rw [hres]
    exact ⟨ScanMono.rfl st, fun h => h⟩
  -- scan_dirtree: files loop fails
  · intro checksum depth st hnd tree hload
    dsimp only []
    intro st2 e heqf
    have hres : scan_dirtree_object env checksum depth st = (st2, some e) := by
      simp only [scan_dirtree_object]
      rw [dif_neg hnd, hload]
      simp only [heqf]
    rw [hres]
    obtain ⟨mf, invf⟩ := scan_dirtree_files_ok env tree.files
      { st with load_events := st.load_events
          ++ [(OstreeObjectType.DIR_TREE, checksum, depth)] }
    rw [heqf] at mf invf
    exact ⟨ScanMono.trans
        (ScanMono_load_push st OstreeObjectType.DIR_TREE checksum depth hnd) mf,
      fun hinv => invf hinv⟩
  -- scan_dirtree: files loop succeeds, dirs loop runs
  · intro checksum depth st hnd tree hload
    dsimp only []
    intro st2 heqf ih3
    have hres : scan_dirtree_object env checksum depth st =
        scan_dirtree_dirs env tree.dirs (depth + 1) st2 := by
      simp only [scan_dirtree_object]
      rw [dif_neg hnd, hload]
      simp only [heqf]
    rw [hres]
    obtain ⟨mf, invf⟩ := scan_dirtree_files_ok env tree.files
      { st with load_events := st.load_events
          ++ [(OstreeObjectType.DIR_TREE, checksum, depth)] }
    rw [heqf] at mf invf
    obtain ⟨m3, i3⟩ := ih3
    refine ⟨ScanMono.trans
        (ScanMono.trans
          (ScanMono_load_push st OstreeObjectType.DIR_TREE checksum depth hnd) mf)
        m3, ?_⟩
    intro hinv
    exact i3 (invf hinv)
  -- dirs loop: empty
  · intro depth st
    have hres : scan_dirtree_dirs env [] depth st = (st, none) := by
      simp [scan_dirtree_dirs]
    rw [hres]
    exact ⟨ScanMono.rfl st, fun h => h⟩
  -- dirs loop: invalid dirname
  · intro depth st dirname tree_csum meta_csum rest hv
    have hres : scan_dirtree_dirs env ((dirname, tree_csum, meta_csum) :: rest)
        depth st = (st, some (PullError.invalidFilename dirname)) := by
      simp [scan_dirtree_dirs, hv]
    rw [hres]
    exact ⟨ScanMono.rfl st, fun h => h⟩
  -- dirs loop: subtree scan fails
  · intro depth st dirname tree_csum meta_csum rest hv st1 e heq1 ih1
    have hv2 : (!ot_util_filename_validate dirname) = false := by
      simpa using hv
    have hres : scan_dirtree_dirs env ((dirname, tree_csum, meta_csum) :: rest)
        depth st = (st1, some e) := by
      simp [scan_dirtree_dirs, hv2, heq1]
    rw [hres]
    obtain ⟨m1, i1⟩ := ih1
    rw [heq1] at m1 i1
    exact ⟨m1, fun hinv => i1 rfl hinv⟩
  -- dirs loop: subtree ok, submeta scan fails
  · intro depth st dirname tree_csum meta_csum rest hv st1 heq1 st2 e heq2 ih1 ih2
    have hv2 : (!ot_util_filename_validate dirname) = false := by
      simpa using hv
    have hres : scan_dirtree_dirs env ((dirname, tree_csum, meta_csum) :: rest)
        depth st = (st2, some e) := by
      simp [scan_dirtree_dirs, hv2, heq1, heq2]
    rw [hres]
    obtain ⟨m1, i1⟩ := ih1
    rw [heq1] at m1 i1
    obtain ⟨m2, i2⟩ := ih2
    rw [heq2] at m2 i2
    exact ⟨ScanMono.trans m1 m2, fun hinv => i2 rfl (i1 rfl hinv)⟩
  -- dirs loop: both ok, recurse on rest
  · intro depth st dirname tree_csum meta_csum rest hv st1 heq1 st2 heq2 ih1 ih2 ih3
    have hv2 : (!ot_util_filename_validate dirname) = false := by
      simpa using hv
    have hres : scan_dirtree_dirs env ((dirname, tree_csum, meta_csum) :: rest)
        depth st = scan_dirtree_dirs env rest depth st2 := by
      simp [scan_dirtree_dirs, hv2, heq1, heq2]
    rw [hres]
    obtain ⟨m1, i1⟩ := ih1
    rw [heq1] at m1 i1
    obtain ⟨m2, i2⟩ := ih2
    rw [heq2] at m2 i2
    obtain ⟨m3, i3⟩ := ih3
    exact ⟨ScanMono.trans (ScanMono.trans m1 m2) m3,
      fun hinv => i3 (i2 rfl (i1 rfl hinv))⟩
  -- scan_commit: recursion bound exceeded
  · intro checksum depth st hd
    have hres : scan_commit_object env checksum depth st =
        (st, some (PullError.corrupt "Exceeded maximum recursion")) := by
      simp only [scan_commit_object]
      rw [dif_pos hd]
    rw [hres]
    exact ⟨ScanMono.rfl st, fun h => h⟩
  -- scan_commit: load fails
  · intro checksum depth st hnd hload
    have hres : scan_commit_object env checksum depth st =
        (st, some (PullError.loadFailed OstreeObjectType.COMMIT checksum)) := by
      simp only [scan_commit_object]
      rw [dif_neg hnd, hload]
    rw [hres]
    exact ⟨ScanMono.rfl st, fun h => h⟩
  -- scan_commit: root tree scan fails
  · intro checksum depth st hnd commit hload
    dsimp only []
    intro st2 e heq1 ih1
    have hres : scan_commit_object env checksum depth st = (st2, some e) := by
      simp only [scan_commit_object]
      rw [dif_neg hnd, hload]
      simp only [heq1]
    rw [hres]
    obtain ⟨m1, i1⟩ := ih1
    rw [heq1] at m1 i1
    exact ⟨ScanMono.trans
        (ScanMono_load_push st OstreeObjectType.COMMIT checksum depth hnd) m1,
      fun hinv => i1 rfl hinv⟩
  -- scan_commit: root tree ok, root meta scan fails
  · intro checksum depth st hnd commit hload
    dsimp only []
    intro st2 heq1 st3 e heq2 ih1 ih2
    have hres : scan_commit_object env checksum depth st = (st3, some e) := by
      simp only [scan_commit_object]
      rw [dif_neg hnd, hload]
      simp only [heq1, heq2]
    rw [hres]
    obtain ⟨m1, i1⟩ := ih1
    rw [heq1] at m1 i1
    obtain ⟨m2, i2⟩ := ih2
    rw [heq2] at m2 i2
    exact ⟨ScanMono.trans
        (ScanMono.trans
          (ScanMono_load_push st OstreeObjectType.COMMIT checksum depth hnd) m1) m2,
      fun hinv => i2 rfl (i1 rfl hinv)⟩
  -- scan_commit: roots ok, opt_related set: scan related list
  · intro checksum depth st hnd commit hload
    dsimp only []
    intro st2 heq1 st3 heq2 hopt ih1 ih2 ih5
    have hres : scan_commit_object env checksum depth st =
        scan_commit_related env commit.related (depth + 1) st3 := by
      simp only [scan_commit_object]
      rw [dif_neg hnd, hload]
      simp only [heq1, heq2, hopt, if_true]
    rw [hres]
    obtain ⟨m1, i1⟩ := ih1
    rw [heq1] at m1 i1
    obtain ⟨m2, i2⟩ := ih2
    rw [heq2] at m2 i2
    obtain ⟨m5, i5⟩ := ih5
    exact ⟨ScanMono.trans
        (ScanMono.trans
          (ScanMono.trans
            (ScanMono_load_push st OstreeObjectType.COMMIT checksum depth hnd) m1) m2)
        m5,
      fun hinv => i5 (i2 rfl (i1 rfl hinv))⟩
  -- scan_commit: roots ok, opt_related unset
  · intro checksum depth st hnd commit hload
    dsimp only []
    intro st2 heq1 st3 heq2 hopt ih1 ih2
    have hopt2 : env.opt_related = false := by
      simpa using hopt
    have hres : scan_commit_object env checksum depth st = (st3, none) := by
      simp only [scan_commit_object]
      rw [dif_neg hnd, hload]
      simp only [heq1, heq2, hopt2, Bool.false_eq_true, if_false]
    rw [hres]
    obtain ⟨m1, i1⟩ := ih1
    rw [heq1] at m1 i1
    obtain ⟨m2, i2⟩ := ih2
    rw [heq2] at m2 i2
    exact ⟨ScanMono.trans
        (ScanMono.trans
          (ScanMono_load_push st OstreeObjectType.COMMIT checksum depth hnd) m1) m2,
      fun hinv => i2 rfl (i1 rfl hinv)⟩
  -- related loop: empty
  · intro depth st
    have hres : scan_commit_related env [] depth st = (st, none) := by
      simp [scan_commit_related]
    rw [hres]
    exact ⟨ScanMono.rfl st, fun h => h⟩
  -- related loop: related commit scan fails
  · intro depth st name csum rest st1 e heq1 ih1
    have hres : scan_commit_related env ((name, csum) :: rest) depth st =
        (st1, some e) := by
      simp [scan_commit_related, heq1]
    rw [hres]
    obtain ⟨m1, i1⟩ := ih1
    rw [heq1] at m1 i1
    exact ⟨m1, fun hinv => i1 rfl hinv⟩
  -- related loop: related commit ok, recurse on rest
  · intro depth st name csum rest st1 heq1 ih1 ih5
    have hres : scan_commit_related env ((name, csum) :: rest) depth st =
        scan_commit_related env rest depth st1 := by
      simp [scan_commit_related, heq1]
    rw [hres]
    obtain ⟨m1, i1⟩ := ih1
    rw [heq1] at m1 i1
    obtain ⟨m5, i5⟩ := ih5
    exact ⟨ScanMono.trans m1 m5, fun hinv => i5 (i1 rfl hinv)⟩

/-- The scanner state at the start of a pull satisfies the requested-set
invariant. -/
theorem ReqInv_init : ReqInv initScanState := by
  intro d
  refine ⟨fun _ => rfl, ?_, fun _ => rfl, ?_⟩ <;>
    simp [countMetaIn, countContentIn, initScanState]

/-- Processing a list of SCAN messages is a legal scanner step and, when
every message names a metadata object, preserves the requested-set
invariant. -/
theorem run_scan_list_ok (env : PullEnv) (objs : List ObjectName) :
    ∀ st : ScanState, ScanMono st (run_scan_list env objs st).1 ∧
      ((∀ o ∈ objs, OSTREE_OBJECT_TYPE_IS_META o.2 = true) →
        ReqInv st → ReqInv (run_scan_list env objs st).1) := by
  induction objs with
  | nil =>
    intro st
    exact ⟨ScanMono.rfl st, fun _ h => h⟩
  | cons o rest ih =>
    intro st
    obtain ⟨m1, i1⟩ := (scan_step_master env).1 o.1 o.2 0 st
    rcases hcall : scan_one_metadata_object env o.1 o.2 0 st with ⟨st1, err⟩
    rw [hcall] at m1 i1
    cases err with
    | some e =>
      have hres : run_scan_list env (o :: rest) st = (st1, some e) := by
        simp only [run_scan_list, scan_one_metadata_object_v_name, hcall]
      rw [hres]
      exact ⟨m1, fun hmeta hinv => i1 (hmeta o (List.mem_cons_self _ _)) hinv⟩
    | none =>
      have hres : run_scan_list env (o :: rest) st = run_scan_list env rest st1 := by
        simp only [run_scan_list, scan_one_metadata_object_v_name, hcall]
      rw [hres]
      obtain ⟨mr, ir⟩ := ih st1
      exact ⟨ScanMono.trans m1 mr,
        fun hmeta hinv =>
          ir (fun o2 ho2 => hmeta o2 (List.mem_cons_of_mem _ ho2))
            (i1 (hmeta o (List.mem_cons_self _ _)) hinv)⟩

/-- C4: across a pull (the scanner starting from the empty ledgers and
fed SCAN messages that, as the dispatcher guarantees, all name metadata
objects), at most one metadata FETCH and at most one content FETCH is
ever pushed for any digest d; moreover a single scan call only ever
grows the requested_metadata and requested_content ledgers. -/
theorem no_redundant_fetch :
    (∀ (env : PullEnv) (objs : List ObjectName) (d : String),
      (∀ o ∈ objs, OSTREE_OBJECT_TYPE_IS_META o.2 = true) →
      countMetaIn (run_scan_list env objs initScanState).1.fetch_pushes d ≤ 1 ∧
      countContentIn (run_scan_list env objs initScanState).1.fetch_pushes d ≤ 1) ∧
    (∀ (env : PullEnv) (o : ObjectName) (st : ScanState) (x : String),
      (x ∈ st.requested_metadata →
        x ∈ (scan_one_metadata_object_v_name env o st).1.requested_metadata) ∧
      (x ∈ st.requested_content →
        x ∈ (scan_one_metadata_object_v_name env o st).1.requested_content)) := by
  constructor
  · intro env objs d hmeta
    have hinv := (run_scan_list_ok env objs initScanState).2 hmeta ReqInv_init
    obtain ⟨-, h2, -, h4⟩ := hinv d
    exact ⟨h2, h4⟩
  · intro env o st x
    obtain ⟨⟨p1, p2, -⟩, -⟩ := (scan_step_master env).1 o.1 o.2 0 st
    exact ⟨p1 x, p2 x⟩

/-- A repository and scanner environment used as concrete witnesses. -/
def repoW : OstreeRepo :=
  { hasObject := fun _ _ => false
    loadCommit := fun _ => none
    loadDirtree := fun _ => none }

/-- Concrete scanner environment for witnesses. -/
def envW : PullEnv := { repo := repoW, opt_related := false }

/-- A scanner state with one requested metadata and one requested
content digest. -/
def stW : ScanState :=
  { initScanState with requested_metadata := ["aa"], requested_content := ["bb"] }

/-- Witness for C4 at concrete inputs. -/
theorem no_redundant_fetch_witness :
    (countMetaIn (run_scan_list envW [("cc", OstreeObjectType.COMMIT)]
        initScanState).1.fetch_pushes "cc" ≤ 1 ∧
      countContentIn (run_scan_list envW [("cc", OstreeObjectType.COMMIT)]
        initScanState).1.fetch_pushes "cc" ≤ 1) ∧
    ("aa" ∈ (scan_one_metadata_object_v_name envW ("cc", OstreeObjectType.COMMIT)
        stW).1.requested_metadata ∧
      "bb" ∈ (scan_one_metadata_object_v_name envW ("cc", OstreeObjectType.COMMIT)
        stW).1.requested_content) :=
  ⟨no_redundant_fetch.1 envW [("cc", OstreeObjectType.COMMIT)] "cc" (by decide),
   ⟨(no_redundant_fetch.2 envW ("cc", OstreeObjectType.COMMIT) stW "aa").1 (by decide),
    (no_redundant_fetch.2 envW ("cc", OstreeObjectType.COMMIT) stW "bb").2 (by decide)⟩⟩

/-- C9: scanning a commit or dirtree object at a recursion depth above
OSTREE_MAX_RECURSION fails immediately with the Corrupt
"Exceeded maximum recursion" error without touching the state, and for
scans seeded at depth 0 every object the scanner actually loads is
loaded at a depth within the bound. -/
theorem recursion_bound_enforced :
    (∀ (env : PullEnv) (cs : String) (d : Nat) (st : ScanState),
      d > OSTREE_MAX_RECURSION →
      scan_commit_object env cs d st =
        (st, some (PullError.corrupt "Exceeded maximum recursion")) ∧
      scan_dirtree_object env cs d st =
        (st, some (PullError.corrupt "Exceeded maximum recursion"))) ∧
    (∀ (env : PullEnv) (objs : List ObjectName) (e : OstreeObjectType × String × Nat),
      e ∈ (run_scan_list env objs initScanState).1.load_events →
      e.2.2 ≤ OSTREE_MAX_RECURSION) := by
  constructor
  · intro env cs d st hd
    constructor
    · simp only [scan_commit_object]
      rw [dif_pos hd]
    · simp only [scan_dirtree_object]
      rw [dif_pos hd]
  · intro env objs e he
    obtain ⟨-, -, m3⟩ := (run_scan_list_ok env objs initScanState).1
    rcases m3 e he with h | h
    · simp [initScanState] at h
    · exact h

/-- Witness for C9 at a concrete input: depth 257 is rejected. -/
theorem recursion_bound_enforced_witness :
    scan_commit_object envW "cc" 257 initScanState =
      (initScanState, some (PullError.corrupt "Exceeded maximum recursion")) ∧
    scan_dirtree_object envW "cc" 257 initScanState =
      (initScanState, some (PullError.corrupt "Exceeded maximum recursion")) :=
  recursion_bound_enforced.1 envW "cc" 257 initScanState (by decide)
